import Mathlib

/-
  Verification of the sparql_noir query-to-circuit transformer
  (src/transform/src/lib.rs) against its natural-language specification.

  The Rust library is shallowly embedded: every `def` below mirrors the
  function of the same name in src/transform/src/lib.rs, the final and most
  complete revision of the transformer (main.rs is an earlier revision of the
  same module).  Process-wide mutable state (the two AtomicUsize counters) is
  threaded explicitly as a `Counters` value; `&mut Vec` accumulation is
  passed/returned functionally; Rust `Result` becomes `Except String`.
-/

namespace SparqlNoir

/-- RDF literal as carried by spargebra: lexical value, optional language tag,
and (already resolved) datatype IRI.  Mirrors `spargebra::term::Literal`
observationally via `value()`, `language()`, `datatype()`. -/
structure Lit where
  value : String
  lang : Option String
  datatype : String
deriving DecidableEq, Repr

/-- spargebra `GroundTerm`: a named node (IRI) or a literal. -/
inductive GroundTerm where
  | namedNode (iri : String)
  | literal (l : Lit)
deriving DecidableEq, Repr

/-- `Term` from lib.rs: `Variable(String) | Input(usize, usize) | Static(GroundTerm)`.
The constructor `Variable` is spelled `var` because `variable` is a Lean keyword. -/
inductive Term where
  | var (name : String)
  | input (i j : Nat)
  | static (g : GroundTerm)
deriving DecidableEq, Repr

/-- `Assertion(Term, Term)` from lib.rs. -/
structure Assertion where
  left : Term
  right : Term
deriving DecidableEq, Repr

/-- `Binding { variable, term }` from lib.rs; the field `variable` is spelled
`varName` because `variable` is a Lean keyword. -/
structure Binding where
  varName : String
  term : Term
deriving DecidableEq, Repr

/-- `GraphContext` from lib.rs. -/
inductive GraphContext where
  | default
  | namedNode (iri : String)
  | var (name : String)
deriving DecidableEq, Repr

/-- spargebra `TermPattern`. -/
inductive TermPat where
  | namedNode (iri : String)
  | var (name : String)
  | blank (id : String)
  | lit (l : Lit)
deriving DecidableEq, Repr

/-- spargebra `NamedNodePattern`. -/
inductive NamedNodePat where
  | namedNode (iri : String)
  | var (name : String)
deriving DecidableEq, Repr

/-- spargebra `TriplePattern`. -/
structure TriplePat where
  subject : TermPat
  predicate : NamedNodePat
  object : TermPat
deriving DecidableEq, Repr

/-- `ContextualizedTriple { pattern, graph }` from lib.rs. -/
structure CtxTriple where
  pattern : TriplePat
  graph : GraphContext
deriving DecidableEq, Repr

-- =============================================================================
-- CHARACTER-LEVEL STRING HELPERS
-- =============================================================================
-- Standard-library String functions such as `startsWith`, `drop`, `trim` and
-- `toLower` do not reduce well inside the kernel, so the few string
-- operations the Rust code uses are implemented here over `List Char`.

/-- Character-list prefix test. -/
def prefixAt : List Char → List Char → Bool
  | [], _ => true
  | _ :: _, [] => false
  | p :: ps, c :: cs => p = c && prefixAt ps cs

/-- Character-list substring search. -/
def containsChars (pat : List Char) : List Char → Bool
  | [] => pat.isEmpty
  | c :: cs => prefixAt pat (c :: cs) || containsChars pat cs

/-- Does `s` contain `pat` as a contiguous substring? -/
def strContains (s pat : String) : Bool := containsChars pat.data s.data

/-- Rust `str::starts_with`. -/
def strStartsWith (s pre : String) : Bool := prefixAt pre.data s.data

/-- Rust `str::ends_with`. -/
def strEndsWith (s suf : String) : Bool := prefixAt suf.data.reverse s.data.reverse

/-- Drop the first `n` characters (all strings involved are ASCII, where
character count and Rust byte count coincide). -/
def strDrop (s : String) (n : Nat) : String := String.mk (s.data.drop n)

/-- ASCII whitespace test (the lexical forms trimmed here are ASCII). -/
def isWs (c : Char) : Bool := c = ' ' ∨ c = '\t' ∨ c = '\n' ∨ c = '\r'

/-- Rust `str::trim` (ASCII whitespace). -/
def strTrim (s : String) : String :=
  String.mk (((s.data.dropWhile isWs).reverse.dropWhile isWs).reverse)

/-- ASCII lower-casing of one character. -/
def asciiLower (c : Char) : Char :=
  if 'A' ≤ c ∧ c ≤ 'Z' then Char.ofNat (c.toNat + 32) else c

/-- Rust `str::to_lowercase` (ASCII). -/
def strToLower (s : String) : String := String.mk (s.data.map asciiLower)

-- =============================================================================
-- IEEE 754 FLOAT HANDLING (lib.rs lines 158-221)
-- =============================================================================

/-- `FloatSpecial` from lib.rs.  `normal` carries the value of
`f64::to_bits(f) as i64` (an exact integer datum). -/
inductive FloatSpecial where
  | normal (bits : Int)
  | nan
  | positiveInf
  | negativeInf
  | positiveZero
  | negativeZero
deriving DecidableEq, Repr

/-- Models the external Rust `str::parse::<f64>()` followed by
`f64::to_bits(f) as i64`, restricted to the decimal literals exercised by the
specification's IEEE-754 test table.  These values are exactly representable
in binary64, so the bit patterns below are the mathematically exact IEEE-754
encodings (written as two's-complement 64-bit integers):
`-2.0` = 0xC000000000000000, `-1.0` = 0xBFF0000000000000,
`1000000.0` = 0x412E848000000000, `-1000000.0` = 0xC12E848000000000.
Other strings are treated as unparseable (the enclosing parser then yields
NaN, exactly as the Rust fallback does for genuinely unparseable input). -/
def f64_parse_bits (v : String) : Option Int :=
  if v = "-2.0" then some (-4611686018427387904)
  else if v = "-1.0" then some (-4616189618054758400)
  else if v = "1000000.0" then some 4696837146684686336
  else if v = "-1000000.0" then some (-4526534890170089472)
  else none

/-- `parse_float_special` from lib.rs (lines 168-188): detect special float
strings, otherwise parse as f64 and keep the bit pattern as an i64; on parse
failure yield NaN. -/
def parse_float_special (value : String) (_datatype : String) : FloatSpecial :=
  let v := strTrim value
  if v = "NaN" then .nan
  else if v = "INF" ∨ v = "+INF" then .positiveInf
  else if v = "-INF" then .negativeInf
  else if v = "0" ∨ v = "0.0" ∨ v = "+0" ∨ v = "+0.0" then .positiveZero
  else if v = "-0" ∨ v = "-0.0" then .negativeZero
  else
    match f64_parse_bits v with
    | some bits => .normal bits
    | none => .nan

/-- `ieee754_less_than` from lib.rs (lines 190-205), with the Rust match arms
in their original order (earlier arms take precedence). -/
def ieee754_less_than : FloatSpecial → FloatSpecial → Option Bool
  | .nan, _ => some false
  | _, .nan => some false
  | .negativeInf, .negativeInf => some false
  | .negativeInf, _ => some true
  | _, .negativeInf => some false
  | .positiveInf, _ => some false
  | _, .positiveInf => some true
  | .positiveZero, .negativeZero => some false
  | .negativeZero, .positiveZero => some false
  | .positiveZero, .positiveZero => some false
  | .negativeZero, .negativeZero => some false
  | .normal x, .normal y => some (decide (x < y))
  | .positiveZero, .normal y => some (decide (0 < y))
  | .negativeZero, .normal y => some (decide (0 < y))
  | .normal x, .positiveZero => some (decide (x < 0))
  | .normal x, .negativeZero => some (decide (x < 0))

/-- `ieee754_equal` from lib.rs (lines 207-221). -/
def ieee754_equal : FloatSpecial → FloatSpecial → Option Bool
  | .nan, _ => some false
  | _, .nan => some false
  | .positiveInf, .positiveInf => some true
  | .negativeInf, .negativeInf => some true
  | .positiveInf, _ => some false
  | _, .positiveInf => some false
  | .negativeInf, _ => some false
  | _, .negativeInf => some false
  | .positiveZero, .negativeZero => some true
  | .negativeZero, .positiveZero => some true
  | .positiveZero, .positiveZero => some true
  | .negativeZero, .negativeZero => some true
  | .normal x, .normal y => some (decide (x = y))
  | .positiveZero, .normal y => some (decide (0 = y))
  | .negativeZero, .normal y => some (decide (0 = y))
  | .normal x, .positiveZero => some (decide (x = 0))
  | .normal x, .negativeZero => some (decide (x = 0))

-- =============================================================================
-- EXPRESSIONS (spargebra algebra, as consumed by lib.rs)
-- =============================================================================

/-- spargebra `Function`, restricted to the variants lib.rs pattern-matches on;
`other` stands for every remaining variant (all of which reach the
`Unsupported function` fallback arms), carrying its Debug name. -/
inductive Func where
  | lang | str | datatype
  | isIri | isBlank | isLiteral | langMatches
  | abs | round | ceil | floor
  | strLen | contains | strStarts | strEnds
  | year | month | day | hours | minutes | seconds | timezone
  | other (name : String)
deriving DecidableEq, Repr

/-- spargebra `Expression`, restricted to the variants lib.rs pattern-matches
on; `add` is a representative of the remaining variants (arithmetic, IN,
EXISTS, IF, COALESCE, ...), all of which reach the
`Unsupported filter expression` fallback arm. -/
inductive Expression where
  | var (name : String)
  | namedNode (iri : String)
  | lit (l : Lit)
  | equal (a b : Expression)
  | sameTerm (a b : Expression)
  | greater (a b : Expression)
  | greaterOrEqual (a b : Expression)
  | less (a b : Expression)
  | lessOrEqual (a b : Expression)
  | and (a b : Expression)
  | or (a b : Expression)
  | not (a : Expression)
  | bound (v : String)
  | functionCall (f : Func) (args : List Expression)
  | add (a b : Expression)
deriving Repr

/-- Debug rendering of a `Func`, modelling Rust `{:?}` formatting. -/
def reprFunc : Func → String
  | .lang => "Lang"
  | .str => "Str"
  | .datatype => "Datatype"
  | .isIri => "IsIri"
  | .isBlank => "IsBlank"
  | .isLiteral => "IsLiteral"
  | .langMatches => "LangMatches"
  | .abs => "Abs"
  | .round => "Round"
  | .ceil => "Ceil"
  | .floor => "Floor"
  | .strLen => "StrLen"
  | .contains => "Contains"
  | .strStarts => "StrStarts"
  | .strEnds => "StrEnds"
  | .year => "Year"
  | .month => "Month"
  | .day => "Day"
  | .hours => "Hours"
  | .minutes => "Minutes"
  | .seconds => "Seconds"
  | .timezone => "Timezone"
  | .other n => n

/-- Debug rendering of a literal, modelling Rust `{:?}` formatting. -/
def reprLit (l : Lit) : String :=
  "Literal(" ++ l.value ++ ", " ++ (l.lang.getD "") ++ ", " ++ l.datatype ++ ")"

mutual

/-- Debug rendering of an `Expression`, modelling Rust `{:?}` formatting:
the exact Rust text is immaterial, what matters (and is proved) is that error
messages embed the rendering of the offending expression. -/
def reprExpr : Expression → String
  | .var n => "Variable(" ++ n ++ ")"
  | .namedNode iri => "NamedNode(" ++ iri ++ ")"
  | .lit l => reprLit l
  | .equal a b => "Equal(" ++ reprExpr a ++ ", " ++ reprExpr b ++ ")"
  | .sameTerm a b => "SameTerm(" ++ reprExpr a ++ ", " ++ reprExpr b ++ ")"
  | .greater a b => "Greater(" ++ reprExpr a ++ ", " ++ reprExpr b ++ ")"
  | .greaterOrEqual a b => "GreaterOrEqual(" ++ reprExpr a ++ ", " ++ reprExpr b ++ ")"
  | .less a b => "Less(" ++ reprExpr a ++ ", " ++ reprExpr b ++ ")"
  | .lessOrEqual a b => "LessOrEqual(" ++ reprExpr a ++ ", " ++ reprExpr b ++ ")"
  | .and a b => "And(" ++ reprExpr a ++ ", " ++ reprExpr b ++ ")"
  | .or a b => "Or(" ++ reprExpr a ++ ", " ++ reprExpr b ++ ")"
  | .not a => "Not(" ++ reprExpr a ++ ")"
  | .bound v => "Bound(" ++ v ++ ")"
  | .functionCall f args => "FunctionCall(" ++ reprFunc f ++ ", [" ++ reprExprList args ++ "])"
  | .add a b => "Add(" ++ reprExpr a ++ ", " ++ reprExpr b ++ ")"

/-- Debug rendering of an expression list (comma separated). -/
def reprExprList : List Expression → String
  | [] => ""
  | [e] => reprExpr e
  | e :: rest => reprExpr e ++ ", " ++ reprExprList rest

end

-- =============================================================================
-- TERM SERIALIZATION (lib.rs lines 227-326)
-- =============================================================================

/-- Character-level replacement used to model Rust `str::replace`. -/
def replaceChar (c : Char) (r : List Char) : List Char → List Char
  | [] => []
  | x :: xs => if x = c then r ++ replaceChar c r xs else x :: replaceChar c r xs

/-- `encode_string_expr` from lib.rs (lines 227-230): quote a string into a
`consts::encode_string` call, escaping backslashes then double quotes. -/
def encode_string_expr (s : String) : String :=
  let e1 := replaceChar '\\' ['\\', '\\'] s.data
  let e2 := replaceChar '\"' ['\\', '\"'] e1
  "consts::encode_string(\"" ++ String.mk e2 ++ "\")"

/-- XSD namespace prefix (`XSD` constant in lib.rs). -/
def XSD : String := "http://www.w3.org/2001/XMLSchema#"

/-- Is every character an ASCII decimal digit? -/
def allDigits (cs : List Char) : Bool := cs.all (fun c => c.isDigit)

/-- Decimal digit list to natural number (most significant first). -/
def digitsToNat (cs : List Char) : Nat :=
  cs.foldl (fun acc c => acc * 10 + (c.toNat - 48)) 0

/-- Models `value.parse::<oxsdatatypes::Integer>()` (an i64-backed XSD integer):
optional sign, one or more digits, and the value must fit in i64. -/
def parseIntegerLit (v : String) : Option Int :=
  let cs := v.data
  let (sign, digits) :=
    match cs with
    | '+' :: rest => ((1 : Int), rest)
    | '-' :: rest => ((-1 : Int), rest)
    | rest => ((1 : Int), rest)
  if digits.isEmpty ∨ ¬ allDigits digits then none
  else
    let n : Int := sign * (digitsToNat digits : Int)
    if -(2 ^ 63) ≤ n ∧ n < 2 ^ 63 then some n else none

/-- Models `value.parse::<oxsdatatypes::Boolean>()`: accepts the XSD boolean
lexical forms true/false/1/0. -/
def parseBoolLit (v : String) : Option Bool :=
  if v = "true" ∨ v = "1" then some true
  else if v = "false" ∨ v = "0" then some false
  else none

/-- Models the external `oxsdatatypes` xsd:dateTime parsing plus the epoch
arithmetic of lib.rs lines 286-299.  The parser is an out-of-scope external
crate (spec section 1); no claim exercises an xsd:dateTime literal, so it is
modelled as unavailable, which makes the enclosing function take the same
`encode_string_expr` fallback Rust takes on unparseable input. -/
def parse_datetime_epoch_ms (_v : String) : Option Int := none

/-- Datatype local names routed to integer handling by
`special_literal_handling` in lib.rs. -/
def integerLocalNames : List String :=
  ["integer", "int", "long", "short", "byte",
   "nonNegativeInteger", "positiveInteger", "negativeInteger", "nonPositiveInteger",
   "unsignedInt", "unsignedLong", "unsignedShort", "unsignedByte"]

/-- `special_literal_handling` from lib.rs (lines 253-305): the type-aware
"special" encoding placed in the second slot of `hash4`. -/
def special_literal_handling (value datatype : String) : String :=
  if ¬ strStartsWith datatype XSD then encode_string_expr value
  else
    let localName := strDrop datatype XSD.length
    if localName = "boolean" then
      match parseBoolLit value with
      | some b => if b then "1" else "0"
      | none => encode_string_expr value
    else if integerLocalNames.contains localName then
      match parseIntegerLit value with
      | some i => toString i
      | none => encode_string_expr value
    else if localName = "dateTime" then
      match parse_datetime_epoch_ms value with
      | some ms => toString ms
      | none => encode_string_expr value
    else encode_string_expr value

/-- `serialize_ground_term` from lib.rs (lines 307-326). -/
def serialize_ground_term : GroundTerm → String
  | .namedNode nn =>
    "consts::hash2([0, " ++ encode_string_expr nn ++ "])"
  | .literal l =>
    let special := special_literal_handling l.value l.datatype
    "consts::hash2([2, consts::hash4([" ++ encode_string_expr l.value ++ ", " ++
      special ++ ", " ++ encode_string_expr (l.lang.getD "") ++ ", " ++
      encode_string_expr l.datatype ++ "])])"

-- =============================================================================
-- PATTERN STRUCTURES (lib.rs lines 66-112)
-- =============================================================================

/-- `OptionalBlock` from lib.rs: id, patterns, bindings, assertions, filters
and nested optional blocks.  An inductive (rather than a structure) because it
nests a list of itself. -/
inductive OptionalBlock where
  | mk (id : Nat) (patterns : List CtxTriple) (bindings : List Binding)
       (assertions : List Assertion) (filters : List Expression)
       (nested : List OptionalBlock)

/-- Accessor for the optional block id. -/
def OptionalBlock.id : OptionalBlock → Nat
  | .mk i _ _ _ _ _ => i

/-- Accessor for the optional block patterns. -/
def OptionalBlock.patterns : OptionalBlock → List CtxTriple
  | .mk _ p _ _ _ _ => p

/-- Accessor for the optional block bindings. -/
def OptionalBlock.bindings : OptionalBlock → List Binding
  | .mk _ _ b _ _ _ => b

/-- Accessor for the optional block assertions. -/
def OptionalBlock.assertions : OptionalBlock → List Assertion
  | .mk _ _ _ a _ _ => a

/-- Accessor for the optional block filters. -/
def OptionalBlock.filters : OptionalBlock → List Expression
  | .mk _ _ _ _ f _ => f

/-- Accessor for the nested optional blocks. -/
def OptionalBlock.nested : OptionalBlock → List OptionalBlock
  | .mk _ _ _ _ _ n => n

/-- `PatternInfo` from lib.rs: patterns, bindings, assertions, filters,
optional union branches and optional blocks.  An inductive because its union
branches nest a list of itself. -/
inductive PatternInfo where
  | mk (patterns : List CtxTriple) (bindings : List Binding)
       (assertions : List Assertion) (filters : List Expression)
       (unionBranches : Option (List PatternInfo))
       (optionalBlocks : List OptionalBlock)

/-- Accessor for the required patterns. -/
def PatternInfo.patterns : PatternInfo → List CtxTriple
  | .mk p _ _ _ _ _ => p

/-- Accessor for the bindings. -/
def PatternInfo.bindings : PatternInfo → List Binding
  | .mk _ b _ _ _ _ => b

/-- Accessor for the assertions. -/
def PatternInfo.assertions : PatternInfo → List Assertion
  | .mk _ _ a _ _ _ => a

/-- Accessor for the filters. -/
def PatternInfo.filters : PatternInfo → List Expression
  | .mk _ _ _ f _ _ => f

/-- Accessor for the union branches. -/
def PatternInfo.unionBranches : PatternInfo → Option (List PatternInfo)
  | .mk _ _ _ _ u _ => u

/-- Accessor for the optional blocks. -/
def PatternInfo.optionalBlocks : PatternInfo → List OptionalBlock
  | .mk _ _ _ _ _ ob => ob

/-- `PatternInfo::new()` from lib.rs. -/
def PatternInfo.new : PatternInfo := .mk [] [] [] [] none []

/-- `QueryInfo` from lib.rs: projected variable names plus one `PatternInfo`.
The field `variables` is spelled `vars` because `variables` is reserved in
Lean. -/
structure QueryInfo where
  vars : List String
  pattern : PatternInfo

-- =============================================================================
-- HIDDEN INPUT SCHEDULE (lib.rs push_hidden / push_hidden_comparison)
-- =============================================================================

/-- One scheduled hidden-input entry.  lib.rs stores these as JSON objects;
the JSON is a function of the computation-kind tag and the source term(s),
which is what the model keeps. -/
inductive HiddenEntry where
  | single (kind : String) (input : Term)
  | pair (kind : String) (left right : Term)
deriving DecidableEq, Repr

/-- Computation-kind tag of a hidden entry (the JSON `computedType` field). -/
def HiddenEntry.kind : HiddenEntry → String
  | .single k _ => k
  | .pair k _ _ => k

/-- `push_hidden` from lib.rs (lines 1051-1064): append an entry, return its
index (the pre-push length). -/
def push_hidden (hidden : List HiddenEntry) (kind : String) (t : Term) :
    Nat × List HiddenEntry :=
  (hidden.length, hidden ++ [.single kind t])

/-- `push_hidden_comparison` from lib.rs (lines 1066-1084). -/
def push_hidden_comparison (hidden : List HiddenEntry) (kind : String)
    (l r : Term) : Nat × List HiddenEntry :=
  (hidden.length, hidden ++ [.pair kind l r])

-- =============================================================================
-- TERM SERIALIZATION INTO NOIR (lib.rs serialize_term, lines 232-248)
-- =============================================================================

/-- Lookup in the model of the `BTreeMap<String, Term>` binding map (an
association list; keys are unique because insertion is guarded on absence). -/
def lookupAssoc (m : List (String × Term)) (k : String) : Option Term :=
  match m with
  | [] => none
  | (k2, v) :: rest => if k2 = k then some v else lookupAssoc rest k

/-- `serialize_term` from lib.rs (lines 232-248).  The Rust function recurses
unboundedly through the binding map when a variable is bound to another
variable; `fuel` makes that recursion structural.  Callers pass
`m.length + 1`, which suffices for every acyclic binding map (each recursion
step consumes one distinct map key); on a cyclic map the Rust original would
not terminate at all. -/
def serialize_term (fuel : Nat) (t : Term) (q : QueryInfo)
    (m : List (String × Term)) : String :=
  match fuel, t with
  | _, .input i j => "bgp[" ++ toString i ++ "].terms[" ++ toString j ++ "]"
  | _, .static g => serialize_ground_term g
  | 0, .var name => "variables." ++ name
  | f + 1, .var name =>
    if q.vars.contains name then "variables." ++ name
    else
      match lookupAssoc m name with
      | some bound => serialize_term f bound q m
      | none => "variables." ++ name

-- =============================================================================
-- EXPRESSION CONVERSION (lib.rs lines 332-430)
-- =============================================================================

/-- `expr_to_term` from lib.rs (lines 332-339). -/
def expr_to_term : Expression → Except String Term
  | .var v => .ok (.var v)
  | .namedNode nn => .ok (.static (.namedNode nn))
  | .lit l => .ok (.static (.literal l))
  | e => .error ("Cannot convert expression to term: " ++ reprExpr e)

/-- Hidden-entry kind tag used by `expr_to_noir_code`. -/
def kExprValue : String := "expr_value"

/-- `expr_to_noir_code` from lib.rs (lines 343-430): lower an expression to a
Noir code string, allocating `expr_value` hidden witnesses for terms and
composing `xpath` library calls for the supported functions.  The `&mut Vec`
hidden accumulator is threaded as an explicit value. -/
def expr_to_noir_code (e : Expression) (q : QueryInfo)
    (m : List (String × Term)) (hidden : List HiddenEntry) :
    Except String (String × List HiddenEntry) :=
  match e with
  | .var v =>
    let (idx, h) := push_hidden hidden kExprValue (.var v)
    .ok ("hidden[" ++ toString idx ++ "]", h)
  | .lit l =>
    let (idx, h) := push_hidden hidden kExprValue (.static (.literal l))
    .ok ("hidden[" ++ toString idx ++ "]", h)
  | .namedNode nn =>
    let (idx, h) := push_hidden hidden kExprValue (.static (.namedNode nn))
    .ok ("hidden[" ++ toString idx ++ "]", h)
  | .functionCall f args =>
    match f, args with
    | .abs, [a] => do
      let (c, h) ← expr_to_noir_code a q m hidden
      .ok ("xpath::abs_int(" ++ c ++ " as i64) as Field", h)
    | .abs, _ => .error ("ABS requires 1 argument")
    | .round, [a] => do
      let (c, h) ← expr_to_noir_code a q m hidden
      .ok ("xpath::round_int(" ++ c ++ " as i64) as Field", h)
    | .round, _ => .error ("ROUND requires 1 argument")
    | .ceil, [a] => do
      let (c, h) ← expr_to_noir_code a q m hidden
      .ok ("xpath::ceil_int(" ++ c ++ " as i64) as Field", h)
    | .ceil, _ => .error ("CEIL requires 1 argument")
    | .floor, [a] => do
      let (c, h) ← expr_to_noir_code a q m hidden
      .ok ("xpath::floor_int(" ++ c ++ " as i64) as Field", h)
    | .floor, _ => .error ("FLOOR requires 1 argument")
    | .year, [a] => do
      let (c, h) ← expr_to_noir_code a q m hidden
      .ok ("xpath::year_from_datetime(xpath::datetime_from_epoch_microseconds(" ++
        c ++ " as i128)) as Field", h)
    | .year, _ => .error ("YEAR requires 1 argument")
    | .month, [a] => do
      let (c, h) ← expr_to_noir_code a q m hidden
      .ok ("xpath::month_from_datetime(xpath::datetime_from_epoch_microseconds(" ++
        c ++ " as i128)) as Field", h)
    | .month, _ => .error ("MONTH requires 1 argument")
    | .day, [a] => do
      let (c, h) ← expr_to_noir_code a q m hidden
      .ok ("xpath::day_from_datetime(xpath::datetime_from_epoch_microseconds(" ++
        c ++ " as i128)) as Field", h)
    | .day, _ => .error ("DAY requires 1 argument")
    | .hours, [a] => do
      let (c, h) ← expr_to_noir_code a q m hidden
      .ok ("xpath::hours_from_datetime(xpath::datetime_from_epoch_microseconds(" ++
        c ++ " as i128)) as Field", h)
    | .hours, _ => .error ("HOURS requires 1 argument")
    | .minutes, [a] => do
      let (c, h) ← expr_to_noir_code a q m hidden
      .ok ("xpath::minutes_from_datetime(xpath::datetime_from_epoch_microseconds(" ++
        c ++ " as i128)) as Field", h)
    | .minutes, _ => .error ("MINUTES requires 1 argument")
    | .seconds, [a] => do
      let (c, h) ← expr_to_noir_code a q m hidden
      .ok ("xpath::seconds_from_datetime(xpath::datetime_from_epoch_microseconds(" ++
        c ++ " as i128)) as Field", h)
    | .seconds, _ => .error ("SECONDS requires 1 argument")
    | f2, _ => .error ("Unsupported function in expression: " ++ reprFunc f2)
  | e2 => .error ("Cannot convert complex expression to Noir code: " ++ reprExpr e2)

-- =============================================================================
-- COMPARISON TYPE DISPATCH (lib.rs lines 432-473)
-- =============================================================================

/-- `ComparisonType` from lib.rs. -/
inductive ComparisonType where
  | numeric | string | boolean | dateTime | unknown
deriving DecidableEq, Repr

/-- Datatype local names classified Numeric by `datatype_to_comparison_type`. -/
def numericLocalNames : List String :=
  ["integer", "decimal", "float", "double", "int", "long", "short", "byte",
   "nonNegativeInteger", "positiveInteger", "negativeInteger", "nonPositiveInteger",
   "unsignedInt", "unsignedLong", "unsignedShort", "unsignedByte"]

/-- Datatype local names classified String by `datatype_to_comparison_type`. -/
def stringLocalNames : List String :=
  ["string", "normalizedString", "token", "language", "Name", "NCName", "NMTOKEN"]

/-- `datatype_to_comparison_type` from lib.rs (lines 441-456). -/
def datatype_to_comparison_type (datatype : String) : ComparisonType :=
  if strStartsWith datatype XSD then
    let lcl := strDrop datatype XSD.length
    if numericLocalNames.contains lcl then .numeric
    else if stringLocalNames.contains lcl then .string
    else if lcl = "boolean" then .boolean
    else if lcl = "dateTime" ∨ lcl = "date" ∨ lcl = "time" then .dateTime
    else .unknown
  else .unknown

/-- `expr_comparison_type` from lib.rs (lines 458-463). -/
def expr_comparison_type : Expression → ComparisonType
  | .lit l => datatype_to_comparison_type l.datatype
  | _ => .unknown

/-- `determine_comparison_type` from lib.rs (lines 465-473): a known operand
type wins over an unknown one. -/
def determine_comparison_type (a b : Expression) : ComparisonType :=
  let ta := expr_comparison_type a
  if ta ≠ .unknown then ta else expr_comparison_type b

-- =============================================================================
-- ACCESSOR-FUNCTION EQUALITY (lib.rs handle_function_equality, lines 477-550)
-- =============================================================================

/-- Rust-style escaping used inline by the Str and Datatype arms. -/
def escapeQuotes (s : String) : String :=
  String.mk (replaceChar '\"' ['\\', '\"'] (replaceChar '\\' ['\\', '\\'] s.data))

/-- `handle_function_equality` from lib.rs (lines 477-550): handles
`LANG(x) = lit`, `STR(x) = lit-or-iri`, `DATATYPE(x) = iri`.  Returns
`some code` with the updated hidden list when handled, `none` (hidden list
untouched) otherwise.  Note the Lang arm interpolates the comparison value
without escaping, while Str and Datatype escape it, exactly as in the Rust. -/
def handle_function_equality (funcExpr otherExpr : Expression)
    (_q : QueryInfo) (_m : List (String × Term)) (hidden : List HiddenEntry) :
    Except String (Option String × List HiddenEntry) :=
  match funcExpr with
  | .functionCall f args =>
    match f with
    | .lang =>
      match args with
      | [a] => do
        let term ← expr_to_term a
        let (idx, h) := push_hidden hidden ("lang") term
        match otherExpr with
        | .lit l =>
          .ok (some ("hidden[" ++ toString idx ++ "] == consts::encode_string(\"" ++
            l.value ++ "\")"), h)
        | _ => .error ("LANG comparison requires a string literal")
      | _ => .error ("LANG requires 1 argument")
    | .str =>
      match args with
      | [a] => do
        let term ← expr_to_term a
        let (idx, h) := push_hidden hidden ("str") term
        match otherExpr with
        | .lit l =>
          .ok (some ("hidden[" ++ toString idx ++ "] == consts::encode_string(\"" ++
            escapeQuotes l.value ++ "\")"), h)
        | .namedNode nn =>
          .ok (some ("hidden[" ++ toString idx ++ "] == consts::encode_string(\"" ++
            escapeQuotes nn ++ "\")"), h)
        | _ => .error ("STR comparison requires a literal or IRI")
      | _ => .error ("STR requires 1 argument")
    | .datatype =>
      match args with
      | [a] => do
        let term ← expr_to_term a
        let (idx, h) := push_hidden hidden ("datatype") term
        match otherExpr with
        | .namedNode nn =>
          .ok (some ("hidden[" ++ toString idx ++ "] == consts::encode_string(\"" ++
            escapeQuotes nn ++ "\")"), h)
        | .lit l =>
          .ok (some ("hidden[" ++ toString idx ++ "] == consts::encode_string(\"" ++
            escapeQuotes l.value ++ "\")"), h)
        | _ => .error ("DATATYPE comparison requires an IRI")
      | _ => .error ("DATATYPE requires 1 argument")
    | _ => .ok (none, hidden)
  | _ => .ok (none, hidden)

-- =============================================================================
-- TYPED COMPARISONS (lib.rs lines 885-1049)
-- =============================================================================

/-- `type_check` from lib.rs (lines 885-898): isIRI/isBlank/isLiteral lower to
a `term_to_field` witness compared against the type code. -/
def type_check (arg : Expression) (typeCode : Int) (_q : QueryInfo)
    (_m : List (String × Term)) (hidden : List HiddenEntry) :
    Except String (String × List HiddenEntry) := do
  let term ← expr_to_term arg
  let (idx, h) := push_hidden hidden ("term_to_field") term
  .ok ("hidden[" ++ toString idx ++ "] == " ++ toString typeCode, h)

/-- Is this literal datatype handled by the float/double constant-fold test of
lib.rs (`ends_with("float") || ends_with("double")`)? -/
def isFloatDt (dt : String) : Bool :=
  strEndsWith dt ("float") ∨ strEndsWith dt ("double")

/-- `numeric_comparison` from lib.rs (lines 900-954): IEEE-754 constant
folding when both operands are float/double literals, otherwise one
`expr_value` hidden witness per operand compared as signed 64-bit integers.
`e` is the whole comparison expression (matched for its operator). -/
def numeric_comparison (e a b : Expression) (q : QueryInfo)
    (m : List (String × Term)) (hidden : List HiddenEntry) :
    Except String (String × List HiddenEntry) :=
  let folded : Option Bool :=
    match a, b with
    | .lit la, .lit lb =>
      if isFloatDt la.datatype ∧ isFloatDt lb.datatype then
        let fa := parse_float_special la.value la.datatype
        let fb := parse_float_special lb.value lb.datatype
        match e with
        | .less _ _ => ieee754_less_than fa fb
        | .lessOrEqual _ _ =>
          match ieee754_less_than fa fb, ieee754_equal fa fb with
          | some lt, some eq => some (lt ∨ eq)
          | _, _ => none
        | .greater _ _ => ieee754_less_than fb fa
        | .greaterOrEqual _ _ =>
          match ieee754_less_than fb fa, ieee754_equal fa fb with
          | some gt, some eq => some (gt ∨ eq)
          | _, _ => none
        | _ => none
      else none
    | _, _ => none
  match folded with
  | some r => .ok (if r then "true" else "false", hidden)
  | none => do
    let (leftCode, h1) ← expr_to_noir_code a q m hidden
    let (rightCode, h2) ← expr_to_noir_code b q m h1
    match e with
    | .greater _ _ =>
      .ok ("(" ++ leftCode ++ " as i64) > (" ++ rightCode ++ " as i64)", h2)
    | .greaterOrEqual _ _ =>
      .ok ("(" ++ leftCode ++ " as i64) >= (" ++ rightCode ++ " as i64)", h2)
    | .less _ _ =>
      .ok ("(" ++ leftCode ++ " as i64) < (" ++ rightCode ++ " as i64)", h2)
    | .lessOrEqual _ _ =>
      .ok ("(" ++ leftCode ++ " as i64) <= (" ++ rightCode ++ " as i64)", h2)
    | _ => .error ("Invalid comparison operator")

/-- `string_comparison` from lib.rs (lines 956-977): one `string_compare`
hidden witness holding the externally computed three-way result. -/
def string_comparison (e a b : Expression) (_q : QueryInfo)
    (_m : List (String × Term)) (hidden : List HiddenEntry) :
    Except String (String × List HiddenEntry) := do
  let left ← expr_to_term a
  let right ← expr_to_term b
  let (idx, h) := push_hidden_comparison hidden ("string_compare") left right
  let i := toString idx
  match e with
  | .less _ _ => .ok ("hidden[" ++ i ++ "] == -1", h)
  | .lessOrEqual _ _ =>
    .ok ("(hidden[" ++ i ++ "] == -1) | (hidden[" ++ i ++ "] == 0)", h)
  | .greater _ _ => .ok ("hidden[" ++ i ++ "] == 1", h)
  | .greaterOrEqual _ _ =>
    .ok ("(hidden[" ++ i ++ "] == 1) | (hidden[" ++ i ++ "] == 0)", h)
  | _ => .error ("Invalid comparison operator")

/-- `extract_bool` helper of `boolean_comparison` in lib.rs. -/
def extract_bool : Expression → Option Bool
  | .lit l =>
    if strEndsWith l.datatype ("boolean") then
      if l.value = "true" ∨ l.value = "1" then some true
      else if l.value = "false" ∨ l.value = "0" then some false
      else none
    else none
  | _ => none

/-- `boolean_comparison` from lib.rs (lines 979-1025): constant folding with
`false < true` when both operands are boolean literals, else two
`boolean_value` witnesses compared as signed integers. -/
def boolean_comparison (e a b : Expression) (_q : QueryInfo)
    (_m : List (String × Term)) (hidden : List HiddenEntry) :
    Except String (String × List HiddenEntry) :=
  match extract_bool a, extract_bool b with
  | some lv, some rv =>
    match e with
    | .less _ _ => .ok (if ¬ lv ∧ rv then "true" else "false", hidden)
    | .lessOrEqual _ _ => .ok (if ¬ lv ∨ rv then "true" else "false", hidden)
    | .greater _ _ => .ok (if lv ∧ ¬ rv then "true" else "false", hidden)
    | .greaterOrEqual _ _ => .ok (if lv ∨ ¬ rv then "true" else "false", hidden)
    | _ => .error ("Invalid comparison operator")
  | _, _ => do
    let left ← expr_to_term a
    let right ← expr_to_term b
    let (li, h1) := push_hidden hidden ("boolean_value") left
    let (ri, h2) := push_hidden h1 ("boolean_value") right
    let ls := "(hidden[" ++ toString li ++ "] as i64)"
    let rs := "(hidden[" ++ toString ri ++ "] as i64)"
    match e with
    | .less _ _ => .ok (ls ++ " < " ++ rs, h2)
    | .lessOrEqual _ _ => .ok (ls ++ " <= " ++ rs, h2)
    | .greater _ _ => .ok (ls ++ " > " ++ rs, h2)
    | .greaterOrEqual _ _ => .ok (ls ++ " >= " ++ rs, h2)
    | _ => .error ("Invalid comparison operator")

/-- `datetime_comparison` from lib.rs (lines 1027-1049): two `datetime_value`
witnesses compared as signed integers. -/
def datetime_comparison (e a b : Expression) (_q : QueryInfo)
    (_m : List (String × Term)) (hidden : List HiddenEntry) :
    Except String (String × List HiddenEntry) := do
  let left ← expr_to_term a
  let right ← expr_to_term b
  let (li, h1) := push_hidden hidden ("datetime_value") left
  let (ri, h2) := push_hidden h1 ("datetime_value") right
  let ls := "(hidden[" ++ toString li ++ "] as i64)"
  let rs := "(hidden[" ++ toString ri ++ "] as i64)"
  match e with
  | .less _ _ => .ok (ls ++ " < " ++ rs, h2)
  | .lessOrEqual _ _ => .ok (ls ++ " <= " ++ rs, h2)
  | .greater _ _ => .ok (ls ++ " > " ++ rs, h2)
  | .greaterOrEqual _ _ => .ok (ls ++ " >= " ++ rs, h2)
  | _ => .error ("Invalid comparison operator")

-- =============================================================================
-- FILTER COMPILATION (lib.rs filter_to_noir, lines 552-883)
-- =============================================================================

/-- Models the EBV constant-fold of `l.value().parse::<f64>()` in the bare
literal arm of `filter_to_noir`: returns `some (num != 0.0 && !num.is_nan())`
when the string parses as an f64, `none` otherwise.  Covers the full Rust
grammar (sign, digits, fraction, exponent, inf/infinity/NaN forms); the only
unmodelled corner is magnitude underflow to 0.0 for values below the smallest
subnormal (no claim exercises this arm at all). -/
def f64_ebv_parse (v : String) : Option Bool :=
  let lower := strToLower v
  if lower = "nan" then some false
  else if lower = "inf" ∨ lower = "+inf" ∨ lower = "-inf" ∨
          lower = "infinity" ∨ lower = "+infinity" ∨ lower = "-infinity" then
    some true
  else
    let cs := v.data
    let body :=
      match cs with
      | '+' :: rest => rest
      | '-' :: rest => rest
      | rest => rest
    let mantissa := body.takeWhile (fun c => c ≠ 'e' ∧ c ≠ 'E')
    let expPart := body.dropWhile (fun c => c ≠ 'e' ∧ c ≠ 'E')
    let expOk : Bool :=
      match expPart with
      | [] => true
      | _ :: rest =>
        let rest2 :=
          match rest with
          | '+' :: r2 => r2
          | '-' :: r2 => r2
          | r2 => r2
        (! rest2.isEmpty) && allDigits rest2
    let intPart := mantissa.takeWhile (fun c => c ≠ '.')
    let fracTail := mantissa.dropWhile (fun c => c ≠ '.')
    let fracPart :=
      match fracTail with
      | [] => []
      | _ :: r2 => r2
    let digits := intPart ++ fracPart
    if allDigits digits && (! digits.isEmpty) && allDigits intPart &&
        allDigits fracPart && (! fracPart.contains '.') && expOk then
      some (digits.any (fun c => c ≠ '0'))
    else none

/-- Datatype suffixes routed to the numeric EBV constant-fold in the bare
literal arm of `filter_to_noir` (lib.rs lines 858-863). -/
def ebvNumericSuffixes : List String :=
  ["integer", "decimal", "float", "double", "int", "long", "short", "byte",
   "unsignedInt", "unsignedLong", "unsignedShort", "unsignedByte",
   "positiveInteger", "negativeInteger", "nonPositiveInteger", "nonNegativeInteger"]

/-- `filter_to_noir` from lib.rs (lines 552-883): compile a FILTER expression
to a Noir boolean expression string, threading the hidden-input schedule. -/
def filter_to_noir (e : Expression) (q : QueryInfo)
    (m : List (String × Term)) (hidden : List HiddenEntry) :
    Except String (String × List HiddenEntry) :=
  match e with
  | .equal a b => do
    let r1 ← handle_function_equality a b q m hidden
    match r1 with
    | (some s, h) => .ok (s, h)
    | (none, h0) => do
      let r2 ← handle_function_equality b a q m h0
      match r2 with
      | (some s, h) => .ok (s, h)
      | (none, h0) => do
        let (leftCode, h1) ←
          match expr_to_noir_code a q m h0 with
          | .ok res => Except.ok res
          | .error _ => do
            let left ← expr_to_term a
            let (idx, h) := push_hidden h0 kExprValue left
            Except.ok ("hidden[" ++ toString idx ++ "]", h)
        let (rightCode, h2) ←
          match expr_to_noir_code b q m h1 with
          | .ok res => Except.ok res
          | .error _ => do
            let right ← expr_to_term b
            let (idx, h) := push_hidden h1 kExprValue right
            Except.ok ("hidden[" ++ toString idx ++ "]", h)
        let folded : Option Bool :=
          match a, b with
          | .lit la, .lit lb =>
            if isFloatDt la.datatype ∧ isFloatDt lb.datatype then
              ieee754_equal (parse_float_special la.value la.datatype)
                (parse_float_special lb.value lb.datatype)
            else none
          | _, _ => none
        match folded with
        | some r => .ok (if r then "true" else "false", h2)
        | none => .ok (leftCode ++ " == " ++ rightCode, h2)
  | .not inner => do
    let (s, h) ← filter_to_noir inner q m hidden
    .ok ("!(" ++ s ++ ")", h)
  | .greater a b =>
    (match determine_comparison_type a b with
     | .numeric => numeric_comparison e a b q m hidden
     | .string => string_comparison e a b q m hidden
     | .boolean => boolean_comparison e a b q m hidden
     | .dateTime => datetime_comparison e a b q m hidden
     | .unknown => numeric_comparison e a b q m hidden)
  | .greaterOrEqual a b =>
    (match determine_comparison_type a b with
     | .numeric => numeric_comparison e a b q m hidden
     | .string => string_comparison e a b q m hidden
     | .boolean => boolean_comparison e a b q m hidden
     | .dateTime => datetime_comparison e a b q m hidden
     | .unknown => numeric_comparison e a b q m hidden)
  | .less a b =>
    (match determine_comparison_type a b with
     | .numeric => numeric_comparison e a b q m hidden
     | .string => string_comparison e a b q m hidden
     | .boolean => boolean_comparison e a b q m hidden
     | .dateTime => datetime_comparison e a b q m hidden
     | .unknown => numeric_comparison e a b q m hidden)
  | .lessOrEqual a b =>
    (match determine_comparison_type a b with
     | .numeric => numeric_comparison e a b q m hidden
     | .string => string_comparison e a b q m hidden
     | .boolean => boolean_comparison e a b q m hidden
     | .dateTime => datetime_comparison e a b q m hidden
     | .unknown => numeric_comparison e a b q m hidden)
  | .and a b => do
    let (l, h1) ← filter_to_noir a q m hidden
    let (r, h2) ← filter_to_noir b q m h1
    .ok ("(" ++ l ++ ") & (" ++ r ++ ")", h2)
  | .or a b => do
    let (l, h1) ← filter_to_noir a q m hidden
    let (r, h2) ← filter_to_noir b q m h1
    .ok ("(" ++ l ++ ") | (" ++ r ++ ")", h2)
  | .bound v =>
    if q.vars.contains v ∨ (lookupAssoc m v).isSome then .ok ("true", hidden)
    else .ok ("false", hidden)
  | .sameTerm a b => do
    let left ← expr_to_term a
    let right ← expr_to_term b
    .ok (serialize_term (m.length + 1) left q m ++ " == " ++
      serialize_term (m.length + 1) right q m, hidden)
  | .functionCall f args =>
    match f with
    | .isIri =>
      match args with
      | [a] => type_check a 0 q m hidden
      | _ => .error ("isIRI requires 1 argument")
    | .isBlank =>
      match args with
      | [a] => type_check a 1 q m hidden
      | _ => .error ("isBlank requires 1 argument")
    | .isLiteral =>
      match args with
      | [a] => type_check a 2 q m hidden
      | _ => .error ("isLiteral requires 1 argument")
    | .langMatches =>
      match args with
      | [a1, a2] => do
        let langTerm ←
          match a1 with
          | .functionCall .lang langArgs =>
            match langArgs with
            | [la] => expr_to_term la
            | _ => .error ("LANG requires 1 argument")
          | _ => expr_to_term a1
        let pattern ←
          match a2 with
          | .lit l => Except.ok l.value
          | _ => Except.error ("LANGMATCHES requires a string pattern")
        let (idx, h) := push_hidden hidden ("lang") langTerm
        if pattern = "*" then
          .ok ("hidden[" ++ toString idx ++ "] != consts::encode_string(\"\")", h)
        else
          let primary := strToLower (String.mk (pattern.data.takeWhile (fun c => c ≠ '-')))
          .ok ("hidden[" ++ toString idx ++ "] == consts::encode_string(\"" ++
            primary ++ "\")", h)
      | _ => .error ("LANGMATCHES requires 2 arguments")
    | .abs =>
      match args with
      | [a] => do
        let term ← expr_to_term a
        let (vi, h1) := push_hidden hidden ("abs_value") term
        let (_di, h2) := push_hidden h1 ("abs_datatype") term
        .ok ("xpath::abs_int(hidden[" ++ toString vi ++ "] as i64) as Field", h2)
      | _ => .error ("ABS requires 1 argument")
    | .round =>
      match args with
      | [a] => do
        let term ← expr_to_term a
        let (vi, h) := push_hidden hidden ("round_value") term
        .ok ("xpath::round_int(hidden[" ++ toString vi ++ "] as i64) as Field", h)
      | _ => .error ("ROUND requires 1 argument")
    | .ceil =>
      match args with
      | [a] => do
        let term ← expr_to_term a
        let (vi, h) := push_hidden hidden ("ceil_value") term
        .ok ("xpath::ceil_int(hidden[" ++ toString vi ++ "] as i64) as Field", h)
      | _ => .error ("CEIL requires 1 argument")
    | .floor =>
      match args with
      | [a] => do
        let term ← expr_to_term a
        let (vi, h) := push_hidden hidden ("floor_value") term
        .ok ("xpath::floor_int(hidden[" ++ toString vi ++ "] as i64) as Field", h)
      | _ => .error ("FLOOR requires 1 argument")
    | .strLen =>
      match args with
      | [a] => do
        let term ← expr_to_term a
        let (si, h) := push_hidden hidden ("strlen_str") term
        .ok ("hidden[" ++ toString si ++ "]", h)
      | _ => .error ("STRLEN requires 1 argument")
    | .contains =>
      match args with
      | [a1, a2] => do
        let t1 ← expr_to_term a1
        let t2 ← expr_to_term a2
        let (i1, h1) := push_hidden hidden ("contains_str1") t1
        let (_i2, h2) := push_hidden h1 ("contains_str2") t2
        .ok ("(hidden[" ++ toString i1 ++ "] != 0)", h2)
      | _ => .error ("CONTAINS requires 2 arguments")
    | .strStarts =>
      match args with
      | [a1, a2] => do
        let t1 ← expr_to_term a1
        let t2 ← expr_to_term a2
        let (i1, h1) := push_hidden hidden ("strstarts_str1") t1
        let (_i2, h2) := push_hidden h1 ("strstarts_str2") t2
        .ok ("(hidden[" ++ toString i1 ++ "] != 0)", h2)
      | _ => .error ("STRSTARTS requires 2 arguments")
    | .strEnds =>
      match args with
      | [a1, a2] => do
        let t1 ← expr_to_term a1
        let t2 ← expr_to_term a2
        let (i1, h1) := push_hidden hidden ("strends_str1") t1
        let (_i2, h2) := push_hidden h1 ("strends_str2") t2
        .ok ("(hidden[" ++ toString i1 ++ "] != 0)", h2)
      | _ => .error ("STRENDS requires 2 arguments")
    | .year =>
      match args with
      | [a] => do
        let term ← expr_to_term a
        let (di, h) := push_hidden hidden ("year_datetime") term
        .ok ("xpath::year_from_datetime(xpath::datetime_from_epoch_microseconds(hidden[" ++
          toString di ++ "] as i128))", h)
      | _ => .error ("YEAR requires 1 argument")
    | .month =>
      match args with
      | [a] => do
        let term ← expr_to_term a
        let (di, h) := push_hidden hidden ("month_datetime") term
        .ok ("xpath::month_from_datetime(xpath::datetime_from_epoch_microseconds(hidden[" ++
          toString di ++ "] as i128))", h)
      | _ => .error ("MONTH requires 1 argument")
    | .day =>
      match args with
      | [a] => do
        let term ← expr_to_term a
        let (di, h) := push_hidden hidden ("day_datetime") term
        .ok ("xpath::day_from_datetime(xpath::datetime_from_epoch_microseconds(hidden[" ++
          toString di ++ "] as i128))", h)
      | _ => .error ("DAY requires 1 argument")
    | .hours =>
      match args with
      | [a] => do
        let term ← expr_to_term a
        let (di, h) := push_hidden hidden ("hours_datetime") term
        .ok ("xpath::hours_from_datetime(xpath::datetime_from_epoch_microseconds(hidden[" ++
          toString di ++ "] as i128))", h)
      | _ => .error ("HOURS requires 1 argument")
    | .minutes =>
      match args with
      | [a] => do
        let term ← expr_to_term a
        let (di, h) := push_hidden hidden ("minutes_datetime") term
        .ok ("xpath::minutes_from_datetime(xpath::datetime_from_epoch_microseconds(hidden[" ++
          toString di ++ "] as i128))", h)
      | _ => .error ("MINUTES requires 1 argument")
    | .seconds =>
      match args with
      | [a] => do
        let term ← expr_to_term a
        let (di, h) := push_hidden hidden ("seconds_datetime") term
        .ok ("xpath::seconds_from_datetime(xpath::datetime_from_epoch_microseconds(hidden[" ++
          toString di ++ "] as i128))", h)
      | _ => .error ("SECONDS requires 1 argument")
    | .timezone =>
      match args with
      | [a] => do
        let term ← expr_to_term a
        let (di, h) := push_hidden hidden ("timezone_datetime") term
        .ok ("xpath::duration_to_microseconds(xpath::timezone_from_datetime(xpath::datetime_from_epoch_microseconds(hidden[" ++
          toString di ++ "] as i128)))", h)
      | _ => .error ("TIMEZONE requires 1 argument")
    | f2 => .error ("Unsupported function: " ++ reprFunc f2)
  | .var v =>
    let t : Term := .var v
    let (vi, h1) := push_hidden hidden ("ebv_value") t
    let (di, h2) := push_hidden h1 ("ebv_datatype") t
    .ok ("ebv::ebv_unchecked(hidden[" ++ toString vi ++ "], hidden[" ++
      toString di ++ "])", h2)
  | .lit l =>
    let dt := l.datatype
    if strEndsWith dt ("boolean") then
      if l.value = "true" ∨ l.value = "1" then .ok ("true", hidden)
      else if l.value = "false" ∨ l.value = "0" then .ok ("false", hidden)
      else .error ("Invalid boolean literal: " ++ l.value)
    else if strEndsWith dt ("string") ∨
        dt = "http://www.w3.org/1999/02/22-rdf-syntax-ns#langString" then
      .ok (if ¬ l.value.data.isEmpty then "true" else "false", hidden)
    else
      let numericFold : Option Bool :=
        if ebvNumericSuffixes.any (fun sfx => strEndsWith dt sfx) then
          f64_ebv_parse l.value
        else none
      match numericFold with
      | some val => .ok (if val then "true" else "false", hidden)
      | none =>
        let t : Term := .static (.literal l)
        let (vi, h1) := push_hidden hidden ("ebv_value") t
        let (di, h2) := push_hidden h1 ("ebv_datatype") t
        .ok ("ebv::ebv_unchecked(hidden[" ++ toString vi ++ "], hidden[" ++
          toString di ++ "])", h2)
  | e2 => .error ("Unsupported filter expression: " ++ reprExpr e2)

-- =============================================================================
-- GRAPH PATTERNS AND PROPERTY PATHS (spargebra algebra as consumed by lib.rs)
-- =============================================================================

/-- spargebra `PropertyPathExpression`.  `zeroOrMore`, `oneOrMore` and
`negated` reach the `Unsupported path expression` fallback of `expand_path`. -/
inductive PropPath where
  | namedNode (iri : String)
  | reverse (p : PropPath)
  | sequence (a b : PropPath)
  | alternative (a b : PropPath)
  | zeroOrOne (p : PropPath)
  | zeroOrMore (p : PropPath)
  | oneOrMore (p : PropPath)
  | negated (iris : List String)
deriving Repr

/-- Debug rendering of a property path, modelling Rust `{:?}`. -/
def reprPath : PropPath → String
  | .namedNode iri => "NamedNode(" ++ iri ++ ")"
  | .reverse p => "Reverse(" ++ reprPath p ++ ")"
  | .sequence a b => "Sequence(" ++ reprPath a ++ ", " ++ reprPath b ++ ")"
  | .alternative a b => "Alternative(" ++ reprPath a ++ ", " ++ reprPath b ++ ")"
  | .zeroOrOne p => "ZeroOrOne(" ++ reprPath p ++ ")"
  | .zeroOrMore p => "ZeroOrMore(" ++ reprPath p ++ ")"
  | .oneOrMore p => "OneOrMore(" ++ reprPath p ++ ")"
  | .negated _ => "NegatedPropertySet(..)"

/-- spargebra `GraphPattern`, restricted to the variants lib.rs matches on.
`minus`, `group` (GROUP BY/aggregation), `service` and nested `project`
(subqueries) reach the `Unsupported graph pattern` fallback arm.  `orderBy`
and `slice` drop the ordering/offset payload that lib.rs ignores. -/
inductive GraphPattern where
  | bgp (patterns : List TriplePat)
  | path (subject : TermPat) (p : PropPath) (object : TermPat)
  | join (left right : GraphPattern)
  | filter (expr : Expression) (inner : GraphPattern)
  | extend (inner : GraphPattern) (v : String) (expr : Expression)
  | leftJoin (left right : GraphPattern) (expr : Option Expression)
  | union (left right : GraphPattern)
  | graph (name : NamedNodePat) (inner : GraphPattern)
  | distinct (inner : GraphPattern)
  | reduced (inner : GraphPattern)
  | orderBy (inner : GraphPattern)
  | slice (inner : GraphPattern)
  | project (inner : GraphPattern) (vars : List String)
  | minus (left right : GraphPattern)
  | group (inner : GraphPattern)
  | service (name : NamedNodePat) (inner : GraphPattern)
deriving Repr

/-- Debug rendering of a triple pattern component. -/
def reprTermPat : TermPat → String
  | .namedNode iri => "NamedNode(" ++ iri ++ ")"
  | .var v => "Variable(" ++ v ++ ")"
  | .blank b => "BlankNode(" ++ b ++ ")"
  | .lit l => reprLit l

/-- Debug rendering of a graph pattern, modelling Rust `{:?}`; as with
`reprExpr`, only the property that error messages embed the offending pattern
matters. -/
def reprGraphPattern : GraphPattern → String
  | .bgp ps => "Bgp(" ++ toString ps.length ++ " patterns)"
  | .path s p o => "Path(" ++ reprTermPat s ++ ", " ++ reprPath p ++ ", " ++ reprTermPat o ++ ")"
  | .join _ _ => "Join(..)"
  | .filter _ _ => "Filter(..)"
  | .extend _ v _ => "Extend(" ++ v ++ ")"
  | .leftJoin _ _ _ => "LeftJoin(..)"
  | .union _ _ => "Union(..)"
  | .graph _ _ => "Graph(..)"
  | .distinct _ => "Distinct(..)"
  | .reduced _ => "Reduced(..)"
  | .orderBy _ => "OrderBy(..)"
  | .slice _ => "Slice(..)"
  | .project _ vs => "Project(" ++ toString vs.length ++ " vars)"
  | .minus _ _ => "Minus(..)"
  | .group _ => "Group(..)"
  | .service _ _ => "Service(..)"

-- =============================================================================
-- BGP PROCESSING (lib.rs process_patterns_with_graph, lines 1101-1227)
-- =============================================================================

/-- Subject-position classification (lib.rs lines 1112-1154): returns new
bindings, new assertions and the updated seen-variable set. -/
def classifySubject (i : Nat) (tp : TermPat) (seen : List String) :
    Except String (List Binding × List Assertion × List String) :=
  match tp with
  | .namedNode nn =>
    .ok ([], [⟨.static (.namedNode nn), .input i 0⟩], seen)
  | .var v =>
    if seen.contains v then .ok ([], [⟨.var v, .input i 0⟩], seen)
    else .ok ([⟨v, .input i 0⟩], [], seen ++ [v])
  | .blank bn =>
    let name := "__blank_" ++ bn
    if seen.contains name then .ok ([], [⟨.var name, .input i 0⟩], seen)
    else .ok ([⟨name, .input i 0⟩], [], seen ++ [name])
  | .lit _ => .error ("Literal in subject position")

/-- Predicate-position classification (lib.rs lines 1157-1174).  Note: a
predicate variable already in the seen set produces neither a binding nor an
assertion — the `if` has no else branch in the Rust. -/
def classifyPredicate (i : Nat) (np : NamedNodePat) (seen : List String) :
    List Binding × List Assertion × List String :=
  match np with
  | .namedNode nn => ([], [⟨.static (.namedNode nn), .input i 1⟩], seen)
  | .var v =>
    if ¬ seen.contains v then ([⟨v, .input i 1⟩], [], seen ++ [v])
    else ([], [], seen)

/-- Object-position classification (lib.rs lines 1177-1223). -/
def classifyObject (i : Nat) (tp : TermPat) (seen : List String) :
    List Binding × List Assertion × List String :=
  match tp with
  | .namedNode nn => ([], [⟨.static (.namedNode nn), .input i 2⟩], seen)
  | .lit l => ([], [⟨.static (.literal l), .input i 2⟩], seen)
  | .var v =>
    if seen.contains v then ([], [⟨.var v, .input i 2⟩], seen)
    else ([⟨v, .input i 2⟩], [], seen ++ [v])
  | .blank bn =>
    let name := "__blank_" ++ bn
    if seen.contains name then ([], [⟨.var name, .input i 2⟩], seen)
    else ([⟨name, .input i 2⟩], [], seen ++ [name])

/-- Loop body accumulator of `process_patterns_with_graph`. -/
def processPatternsGo (graph : GraphContext) (i : Nat) :
    List TriplePat → List String → List CtxTriple → List Binding →
    List Assertion → Except String (List CtxTriple × List Binding × List Assertion)
  | [], _, ctxs, bs, asr => .ok (ctxs, bs, asr)
  | tp :: rest, seen, ctxs, bs, asr => do
    let (sb, sa, seen1) ← classifySubject i tp.subject seen
    let (pb, pa, seen2) := classifyPredicate i tp.predicate seen1
    let (ob, oa, seen3) := classifyObject i tp.object seen2
    processPatternsGo graph (i + 1) rest seen3
      (ctxs ++ [⟨tp, graph⟩]) (bs ++ sb ++ pb ++ ob) (asr ++ sa ++ pa ++ oa)

/-- `process_patterns_with_graph` from lib.rs (lines 1101-1227): walk the
triples in order, classifying each position against the seen-variable set. -/
def process_patterns_with_graph (patterns : List TriplePat)
    (graph : GraphContext) : Except String PatternInfo := do
  let (ctxs, bs, asr) ← processPatternsGo graph 0 patterns [] [] [] []
  .ok (.mk ctxs bs asr [] none [])

/-- `process_patterns` from lib.rs (line 1097). -/
def process_patterns (patterns : List TriplePat) : Except String PatternInfo :=
  process_patterns_with_graph patterns .default

-- =============================================================================
-- PROPERTY PATH EXPANSION (lib.rs expand_path, lines 1229-1306)
-- =============================================================================

/-- `fresh_variable` from lib.rs (lines 1090-1095): the process-wide
`VAR_COUNTER` is threaded explicitly; each call yields `__v<id>` and the
incremented counter. -/
def fresh_variable (varCtr : Nat) : TermPat × Nat :=
  (.var ("__v" ++ toString varCtr), varCtr + 1)

/-- `expand_path` from lib.rs (lines 1229-1306): rewrite a property path into
an equivalent BGP/Join/Union/Extend subtree, threading the fresh-variable
counter. -/
def expand_path (subject : TermPat) (path : PropPath) (object : TermPat)
    (varCtr : Nat) : Except String (GraphPattern × Nat) :=
  match path with
  | .namedNode nn =>
    .ok (.bgp [⟨subject, .namedNode nn, object⟩], varCtr)
  | .reverse inner =>
    match inner with
    | .namedNode nn => .ok (.bgp [⟨object, .namedNode nn, subject⟩], varCtr)
    | _ => .error ("Unsupported reverse path: " ++ reprPath path)
  | .sequence a b => do
    let (mid, c1) := fresh_variable varCtr
    let (left, c2) ← expand_path subject a mid c1
    let (right, c3) ← expand_path mid b object c2
    .ok (.join left right, c3)
  | .alternative a b => do
    let (left, c1) ← expand_path subject a object varCtr
    let (right, c2) ← expand_path subject b object c1
    .ok (.union left right, c2)
  | .zeroOrOne inner => do
    let (one, c1) ← expand_path subject inner object varCtr
    match subject with
    | .var sv =>
      match object with
      | .var ov => .ok (.union one (.extend (.bgp []) sv (.var ov)), c1)
      | _ => .error ("ZeroOrOne requires variable object")
    | _ =>
      match object with
      | .var ov =>
        match subject with
        | .namedNode nn => .ok (.union one (.extend (.bgp []) ov (.namedNode nn)), c1)
        | _ => .error ("ZeroOrOne requires named node subject")
      | _ => .ok (.union one (.bgp []), c1)
  | _ => .error ("Unsupported path expression: " ++ reprPath path)

-- =============================================================================
-- INDEX ADJUSTMENT (lib.rs adjust_optional_block_indices, lines 1309-1331)
-- =============================================================================

/-- Shift an `Input` term by an offset; all other terms unchanged (the match
lib.rs repeats inline at each merge site). -/
def shiftInput (offset : Nat) : Term → Term
  | .input i j => .input (i + offset) j
  | t => t

/-- Shift a binding's term. -/
def shiftBinding (offset : Nat) (b : Binding) : Binding :=
  ⟨b.varName, shiftInput offset b.term⟩

/-- Shift both sides of an assertion. -/
def shiftAssertion (offset : Nat) (a : Assertion) : Assertion :=
  ⟨shiftInput offset a.left, shiftInput offset a.right⟩

mutual

/-- `adjust_optional_block_indices` from lib.rs (lines 1309-1331): shift every
`Input` reference in a block's bindings and assertions (and recursively its
nested blocks) by `offset`. -/
def adjust_optional_block_indices (offset : Nat) : OptionalBlock → OptionalBlock
  | .mk id ps bs asr fs nested =>
    .mk id ps (bs.map (shiftBinding offset)) (asr.map (shiftAssertion offset)) fs
      (adjustBlocks offset nested)

/-- List version of `adjust_optional_block_indices`. -/
def adjustBlocks (offset : Nat) : List OptionalBlock → List OptionalBlock
  | [] => []
  | b :: rest => adjust_optional_block_indices offset b :: adjustBlocks offset rest

end

-- =============================================================================
-- PATTERN COMPILER (lib.rs process_graph_pattern, lines 1333-1578)
-- =============================================================================

/-- The two process-wide `AtomicUsize` counters of lib.rs, threaded
explicitly: `varCtr` is `VAR_COUNTER` (fresh path variables), `optCtr` is
`OPTIONAL_BLOCK_COUNTER` (optional block ids). -/
structure Counters where
  varCtr : Nat
  optCtr : Nat
deriving DecidableEq, Repr

/-- Merge of two `PatternInfo`s in the Join arm (lib.rs lines 1342-1392):
concatenate patterns, shift every right-side `Input` reference by the length
of the left pattern list, concatenate bindings/assertions/filters, propagate
union branches (left wins when both are present), and shift-and-append the
right side's optional blocks. -/
def mergeJoin (li ri : PatternInfo) : PatternInfo :=
  let offset := li.patterns.length
  let ub :=
    match li.unionBranches, ri.unionBranches with
    | none, none => none
    | some u, _ => some u
    | none, some u => some u
  .mk (li.patterns ++ ri.patterns)
    (li.bindings ++ ri.bindings.map (shiftBinding offset))
    (li.assertions ++ ri.assertions.map (shiftAssertion offset))
    (li.filters ++ ri.filters)
    ub
    (li.optionalBlocks ++ adjustBlocks offset ri.optionalBlocks)

/-- Flattening of nested unions into a branch list (the `collect_branches`
closure in the Union arm of lib.rs, lines 1481-1496). -/
def flattenUnion : GraphPattern → List GraphPattern
  | .union l r => flattenUnion l ++ flattenUnion r
  | gp => [gp]

/-- Rust `iter().max_by_key(patterns.len())`: the LAST maximal element wins
when several branches tie. -/
def maxByPatternsLen (branches : List PatternInfo) : Option PatternInfo :=
  branches.foldl
    (fun acc b =>
      match acc with
      | none => some b
      | some a => if b.patterns.length ≥ a.patterns.length then some b else some a)
    none

/-- Graph-context tagging plus graph-slot pinning of the Graph arm
(lib.rs lines 1514-1552). -/
def applyGraphContext (info : PatternInfo) (name : NamedNodePat) : PatternInfo :=
  let ctx : GraphContext :=
    match name with
    | .namedNode nn => .namedNode nn
    | .var v => .var v
  let ps := info.patterns.map (fun ct => ⟨ct.pattern, ctx⟩)
  match name with
  | .namedNode nn =>
    .mk ps info.bindings
      (info.assertions ++ (List.range ps.length).map
        (fun i => ⟨.static (.namedNode nn), .input i 3⟩))
      info.filters info.unionBranches info.optionalBlocks
  | .var v =>
    if ps.isEmpty then
      .mk ps info.bindings info.assertions info.filters info.unionBranches
        info.optionalBlocks
    else
      .mk ps (info.bindings ++ [⟨v, .input 0 3⟩])
        (info.assertions ++ (List.range (ps.length - 1)).map
          (fun k => ⟨.var v, .input (k + 1) 3⟩))
        info.filters info.unionBranches info.optionalBlocks

mutual

/-- `process_graph_pattern` from lib.rs (lines 1333-1578).  `fuel` makes the
one non-structural recursion (the Path arm recurses on the freshly expanded
tree) structural; it is decremented on every recursive call, so any fuel at
least the total node count of the query (after path expansion) is sufficient.
Counter state is threaded; unsupported node kinds (`project` in nested
position, `minus`, `group`, `service`, ...) hit the fallback error arm. -/
def process_graph_pattern (fuel : Nat) (gp : GraphPattern) (c : Counters) :
    Except String (PatternInfo × Counters) :=
  match fuel with
  | 0 => .error ("model fuel exhausted")
  | fuel + 1 =>
    match gp with
    | .bgp patterns => do
      let info ← process_patterns patterns
      .ok (info, c)
    | .path s p o => do
      let (expanded, v2) ← expand_path s p o c.varCtr
      process_graph_pattern fuel expanded ⟨v2, c.optCtr⟩
    | .join l r => do
      let (li, c1) ← process_graph_pattern fuel l c
      let (ri, c2) ← process_graph_pattern fuel r c1
      .ok (mergeJoin li ri, c2)
    | .filter e inner => do
      let (info, c1) ← process_graph_pattern fuel inner c
      .ok (.mk info.patterns info.bindings info.assertions (info.filters ++ [e])
        info.unionBranches info.optionalBlocks, c1)
    | .extend inner v e => do
      let (info, c1) ← process_graph_pattern fuel inner c
      let term ← (match e with
        | .var v2 => Except.ok (Term.var v2)
        | .namedNode nn => Except.ok (Term.static (.namedNode nn))
        | .lit l => Except.ok (Term.static (.literal l))
        | _ => Except.error ("Unsupported BIND expression"))
      .ok (.mk info.patterns (info.bindings ++ [⟨v, term⟩]) info.assertions
        info.filters info.unionBranches info.optionalBlocks, c1)
    | .leftJoin l r e => do
      let (li, c1) ← process_graph_pattern fuel l c
      let (ri, c2) ← process_graph_pattern fuel r c1
      let offset := li.patterns.length
      let optionalId := c2.optCtr
      let c3 : Counters := ⟨c2.varCtr, c2.optCtr + 1⟩
      let adjustedBindings := ri.bindings.map (shiftBinding offset)
      let adjustedAssertions := ri.assertions.map (shiftAssertion offset)
      let optionalFilters := ri.filters ++ (match e with
        | some ex => [ex]
        | none => [])
      let adjustedNested := adjustBlocks offset ri.optionalBlocks
      let block : OptionalBlock :=
        .mk optionalId ri.patterns adjustedBindings adjustedAssertions
          optionalFilters adjustedNested
      .ok (.mk li.patterns li.bindings li.assertions li.filters
        li.unionBranches (li.optionalBlocks ++ [block]), c3)
    | .union l r => do
      let (branches, c1) ← processUnionBranches fuel (flattenUnion (.union l r)) c
      let patterns := (maxByPatternsLen branches).map (fun b => b.patterns) |>.getD []
      .ok (.mk patterns [] [] [] (some branches) [], c1)
    | .graph name inner => do
      let (info, c1) ← process_graph_pattern fuel inner c
      .ok (applyGraphContext info name, c1)
    | .distinct inner => process_graph_pattern fuel inner c
    | .reduced inner => process_graph_pattern fuel inner c
    | .orderBy inner => process_graph_pattern fuel inner c
    | .slice inner => process_graph_pattern fuel inner c
    | other => .error ("Unsupported graph pattern: " ++ reprGraphPattern other)

/-- Branch-wise processing of a flattened union (the recursion of
`collect_branches` in lib.rs restricted to non-union leaves). -/
def processUnionBranches (fuel : Nat) (gps : List GraphPattern) (c : Counters) :
    Except String (List PatternInfo × Counters) :=
  match fuel with
  | 0 => .error ("model fuel exhausted")
  | fuel + 1 =>
    match gps with
    | [] => .ok ([], c)
    | gp :: rest => do
      let (i, c1) ← process_graph_pattern fuel gp c
      let (is, c2) ← processUnionBranches fuel rest c1
      .ok (i :: is, c2)

end

-- =============================================================================
-- QUERY PROCESSING (lib.rs process_query, lines 1580-1613)
-- =============================================================================

/-- The modifier-unwrapping loop at the head of `process_query`. -/
def unwrapModifiers : GraphPattern → GraphPattern
  | .distinct i => unwrapModifiers i
  | .reduced i => unwrapModifiers i
  | .orderBy i => unwrapModifiers i
  | .slice i => unwrapModifiers i
  | g => g

/-- Ascending insertion into a sorted string list (models Rust `Vec::sort`). -/
def insertSorted (x : String) : List String → List String
  | [] => [x]
  | y :: ys => if x ≤ y then x :: y :: ys else y :: insertSorted x ys

/-- Ascending sort of a string list. -/
def sortStrings (l : List String) : List String := l.foldr insertSorted []

/-- Rust `Vec::dedup`: drop consecutive duplicates. -/
def dedupConsecutive : List String → List String
  | [] => []
  | [x] => [x]
  | x :: y :: rest =>
    if x = y then dedupConsecutive (y :: rest)
    else x :: dedupConsecutive (y :: rest)

/-- `process_query` from lib.rs (lines 1580-1613): unwrap the post-processing
modifiers, then either take the Project node's variable list or (ASK shape)
derive the sorted, deduplicated binding-variable names. -/
def process_query (fuel : Nat) (gp : GraphPattern) (c : Counters) :
    Except String (QueryInfo × Counters) :=
  match unwrapModifiers gp with
  | .project inner vars => do
    let (pattern, c1) ← process_graph_pattern fuel inner c
    .ok (⟨vars, pattern⟩, c1)
  | inner => do
    let (pattern, c1) ← process_graph_pattern fuel inner c
    let vars := dedupConsecutive (sortStrings (pattern.bindings.map (fun b => b.varName)))
    .ok (⟨vars, pattern⟩, c1)

-- =============================================================================
-- EMITTER (lib.rs generate_sparql_nr_from_query_info, lines 1795-1939)
-- =============================================================================

/-- Build the non-projected-variable binding map (first binding per
unprojected variable), lib.rs lines 1800-1805. -/
def buildBindingMap (vars : List String) (bindings : List Binding) :
    List (String × Term) :=
  bindings.foldl
    (fun m b =>
      if vars.contains b.varName ∨ (lookupAssoc m b.varName).isSome then m
      else m ++ [(b.varName, b.term)])
    []

/-- Assert text for one binding (lib.rs lines 1823-1830 / 1848-1855). -/
def bindingAssertStr (q : QueryInfo) (m : List (String × Term)) (b : Binding) :
    String :=
  serialize_term (m.length + 1) (.var b.varName) q m ++ " == " ++
    serialize_term (m.length + 1) b.term q m

/-- Assert text for one assertion (lib.rs lines 1832-1838 / 1857-1863). -/
def assertionStr (q : QueryInfo) (m : List (String × Term)) (a : Assertion) :
    String :=
  serialize_term (m.length + 1) a.left q m ++ " == " ++
    serialize_term (m.length + 1) a.right q m

/-- Compile a filter list in order, threading the hidden schedule
(lib.rs lines 1840-1843 / 1865-1868). -/
def compileFilters (fs : List Expression) (q : QueryInfo)
    (m : List (String × Term)) (hidden : List HiddenEntry) :
    Except String (List String × List HiddenEntry) :=
  match fs with
  | [] => .ok ([], hidden)
  | f :: rest => do
    let (s, h1) ← filter_to_noir f q m hidden
    let (ss, h2) ← compileFilters rest q m h1
    .ok (s :: ss, h2)

/-- Per-branch assert-list generation for UNION-bearing patterns
(lib.rs lines 1813-1846): each branch extends the shared binding map with its
own bindings, and the hidden schedule is threaded across all branches. -/
def compileUnionBranches (branches : List PatternInfo) (q : QueryInfo)
    (baseMap : List (String × Term)) (hidden : List HiddenEntry) :
    Except String (List (List String) × List HiddenEntry) :=
  match branches with
  | [] => .ok ([], hidden)
  | branch :: rest => do
    let bb := branch.bindings.foldl
      (fun m b =>
        if q.vars.contains b.varName ∨ (lookupAssoc m b.varName).isSome then m
        else m ++ [(b.varName, b.term)])
      baseMap
    let bAsserts := branch.bindings.map (bindingAssertStr q bb) ++
      branch.assertions.map (assertionStr q bb)
    let (fAsserts, h1) ← compileFilters branch.filters q bb hidden
    let (restAsserts, h2) ← compileUnionBranches rest q baseMap h1
    .ok ((bAsserts ++ fAsserts) :: restAsserts, h2)

/-- `TransformOptions` from lib.rs. -/
structure TransformOptions where
  skipSigning : Bool
deriving DecidableEq, Repr

/-- Does the hidden schedule contain EBV witnesses (the `needs_ebv` scan of
lib.rs lines 1883-1887)? -/
def needsEbv (hidden : List HiddenEntry) : Bool :=
  hidden.any (fun h => h.kind = "ebv_value" ∨ h.kind = "ebv_datatype")

/-- Render the final `sparql.nr` text (lib.rs lines 1871-1936). -/
def renderSparqlNr (info : QueryInfo) (options : TransformOptions)
    (assertions : List String) (unionAssertions : List (List String))
    (hidden : List HiddenEntry) : String :=
  let hasHidden := ¬ hidden.isEmpty
  let header :=
    "// Generated by sparql_noir transform\n" ++
    "use dep::consts;\n" ++
    (if options.skipSigning then "use super::Triple;\n"
     else "use dep::utils;\nuse dep::types::Triple;\n") ++
    (if needsEbv hidden then "use dep::ebv;\n" else "") ++
    "\n"
  let bgpType :=
    "pub(crate) type BGP = [Triple; " ++ toString info.pattern.patterns.length ++
    "];\n"
  let varsStruct :=
    "pub(crate) struct Variables \x7b\n" ++
    String.join (info.vars.map (fun v => "  pub(crate) " ++ v ++ ": Field,\n")) ++
    "\x7d\n\n"
  let hiddenType :=
    if hasHidden then
      "pub(crate) type Hidden = [Field; " ++ toString hidden.length ++ "];\n"
    else ""
  let fnHeader :=
    "pub(crate) fn checkBinding(bgp: BGP, variables: Variables" ++
    (if hasHidden then ", hidden: Hidden" else "") ++ ") \x7b\n"
  let body :=
    if ¬ unionAssertions.isEmpty then
      String.join (unionAssertions.enum.map (fun p =>
        let expr :=
          if p.2.isEmpty then "false"
          else String.intercalate (" & ") (p.2.map (fun s => "(" ++ s ++ ")"))
        "  let branch_" ++ toString p.1 ++ " = " ++ expr ++ ";\n")) ++
      "  assert(" ++
        String.intercalate (" | ")
          ((List.range unionAssertions.length).map (fun i => "branch_" ++ toString i)) ++
      ");\n"
    else
      String.join (assertions.map (fun a => "  assert(" ++ a ++ ");\n"))
  header ++ bgpType ++ varsStruct ++ hiddenType ++ fnHeader ++ body ++ "\x7d\n"

/-- `generate_sparql_nr_from_query_info` from lib.rs (lines 1795-1939):
returns the circuit text, the hidden-input schedule and whether any hidden
witnesses were requested. -/
def generate_sparql_nr_from_query_info (info : QueryInfo)
    (options : TransformOptions) :
    Except String (String × List HiddenEntry × Bool) := do
  let bindingMap := buildBindingMap info.vars info.pattern.bindings
  let (assertions, unionAssertions, hidden) ←
    match info.pattern.unionBranches with
    | some branches => do
      let (ua, h) ← compileUnionBranches branches info bindingMap []
      Except.ok (([] : List String), ua, h)
    | none => do
      let bAsserts := info.pattern.bindings.map (bindingAssertStr info bindingMap) ++
        info.pattern.assertions.map (assertionStr info bindingMap)
      let (fAsserts, h) ← compileFilters info.pattern.filters info bindingMap []
      Except.ok (bAsserts ++ fAsserts, ([] : List (List String)), h)
  .ok (renderSparqlNr info options assertions unionAssertions hidden, hidden,
    ¬ hidden.isEmpty)

-- =============================================================================
-- OPTIONAL-COMBINATION GENERATOR (lib.rs lines 1703-1791)
-- =============================================================================

mutual

/-- `collect_all_optional_blocks` from lib.rs (lines 1703-1720): flatten
nested optional blocks into a single list, each flattened entry keeping its
own id but dropping its nested list. -/
def collect_all_optional_blocks : List OptionalBlock → List OptionalBlock
  | [] => []
  | b :: rest => collectOneBlock b ++ collect_all_optional_blocks rest

/-- Flatten a single block: itself (nested list cleared) followed by its
recursively flattened nested blocks. -/
def collectOneBlock : OptionalBlock → List OptionalBlock
  | .mk id ps bs asr fs nested =>
    .mk id ps bs asr fs [] :: collect_all_optional_blocks nested

end

/-- Insert into the model of a `HashSet<String>` (membership-only use). -/
def insertSet (s : List String) (x : String) : List String :=
  if s.contains x then s else s ++ [x]

/-- The `optional_only_vars` computation shared by
`generate_circuit_for_optional_combination` (lib.rs lines 1743-1765) and the
per-variant metadata loop (lib.rs lines 2100-2117): variables bound in
unmatched blocks, minus those bound in the base pattern, minus those bound in
matched blocks. -/
def optionalOnlyVars (info : QueryInfo) (allOptionals : List OptionalBlock)
    (matched : List Nat) : List String :=
  let s0 := allOptionals.enum.foldl
    (fun s p =>
      if matched.contains p.1 then s
      else p.2.bindings.foldl (fun s2 b => insertSet s2 b.varName) s)
    []
  let s1 := info.pattern.bindings.foldl
    (fun s b => s.filter (fun x => x ≠ b.varName)) s0
  matched.foldl
    (fun s idx =>
      match allOptionals.get? idx with
      | some opt => opt.bindings.foldl (fun s2 b => s2.filter (fun x => x ≠ b.varName)) s
      | none => s)
    s1

/-- `generate_circuit_for_optional_combination` from lib.rs (lines
1726-1791): base pattern plus exactly the matched blocks' content, projected
variables filtered of those appearing only in unmatched blocks' bindings. -/
def generate_circuit_for_optional_combination (baseInfo : QueryInfo)
    (allOptionals : List OptionalBlock) (matched : List Nat)
    (options : TransformOptions) :
    Except String (String × List HiddenEntry × Bool) :=
  let oov := optionalOnlyVars baseInfo allOptionals matched
  let combined := matched.foldl
    (fun acc idx =>
      match allOptionals.get? idx with
      | some opt =>
        PatternInfo.mk (acc.patterns ++ opt.patterns) (acc.bindings ++ opt.bindings)
          (acc.assertions ++ opt.assertions) (acc.filters ++ opt.filters)
          acc.unionBranches acc.optionalBlocks
      | none => acc)
    (PatternInfo.mk baseInfo.pattern.patterns baseInfo.pattern.bindings
      baseInfo.pattern.assertions baseInfo.pattern.filters
      baseInfo.pattern.unionBranches [])
  let filteredVars := baseInfo.vars.filter (fun v => ¬ oov.contains v)
  generate_sparql_nr_from_query_info ⟨filteredVars, combined⟩ options

-- =============================================================================
-- TOP-LEVEL TRANSFORM (lib.rs transform_query_with_options, lines 1953-2154)
-- =============================================================================

/-- One secondary circuit variant (`OptionalCircuit` in lib.rs); the JSON
metadata document is kept as its structured content (variables, input
patterns, hidden schedule), of which the serialized JSON is a function. -/
structure OptionalCircuitR where
  matchedOptionals : List Nat
  sparqlNr : String
  metaVariables : List String
  metaInputPatterns : List CtxTriple
  hiddenInputs : List HiddenEntry
deriving DecidableEq, Repr

/-- The transform output (`TransformResult` in lib.rs).  `main_nr` and
`nargo_toml` are deterministic functions of `hasHidden` / `needs_ebv` /
`skip_signing` and the embedded templates and are not re-modelled; the JSON
metadata document is kept as its structured content, of which the serialized
JSON is a function. -/
structure TransformResultR where
  sparqlNr : String
  hiddenInputs : List HiddenEntry
  hasHidden : Bool
  metaVariables : List String
  metaInputPatterns : List CtxTriple
  metaOptionalPatterns : List (Nat × List CtxTriple)
  metaUnionBranches : List (List CtxTriple)
  numOptionals : Nat
  totalPatterns : Nat
  optionalCircuits : List OptionalCircuitR
deriving DecidableEq, Repr

/-- Error-propagating map, modelling a Rust `for` loop whose body uses `?`:
the first failure aborts, otherwise results are collected in order. -/
def mapExcept (f : α → Except String β) : List α → Except String (List β)
  | [] => .ok []
  | x :: xs => do
    let y ← f x
    let ys ← mapExcept f xs
    .ok (y :: ys)

/-- Matched-index list for a combination bit mask (lib.rs lines 2087-2089). -/
def matchedIndicesOf (combo n : Nat) : List Nat :=
  (List.range n).filter (fun i => (combo >>> i) % 2 = 1)

/-- Build one secondary circuit variant (the body of the combination loop,
lib.rs lines 2085-2144). -/
def buildCombo (info : QueryInfo) (allOptionals : List OptionalBlock)
    (options : TransformOptions) (n combo : Nat) :
    Except String OptionalCircuitR := do
  let matched := matchedIndicesOf combo n
  let (circuitNr, circuitHidden, _) ←
    generate_circuit_for_optional_combination info allOptionals matched options
  let oov := optionalOnlyVars info allOptionals matched
  let comboVars := info.vars.filter (fun v => ¬ oov.contains v)
  let comboPatterns := matched.foldl
    (fun acc idx =>
      match allOptionals.get? idx with
      | some opt => acc ++ opt.patterns
      | none => acc)
    info.pattern.patterns
  .ok ⟨matched, circuitNr, comboVars, comboPatterns, circuitHidden⟩

/-- `transform_query_with_options` from lib.rs (lines 1953-2154), taking the
already parsed algebra root (the SPARQL text parser is an out-of-scope
external component; all four query forms route their WHERE pattern here).
Resets the optional-block counter but NOT the fresh-variable counter, exactly
as the Rust does (`reset_optional_counter()` is the only reset). -/
def transform_query_with_options (fuel : Nat) (root : GraphPattern)
    (options : TransformOptions) (c : Counters) :
    Except String (TransformResultR × Counters) := do
  let c0 : Counters := ⟨c.varCtr, 0⟩
  let (info, c1) ← process_query fuel root c0
  let allOptionals := collect_all_optional_blocks info.pattern.optionalBlocks
  let n := allOptionals.length
  let (baseNr, baseHidden, hasHidden) ←
    generate_circuit_for_optional_combination info allOptionals (List.range n)
      options
  let totalPatterns := info.pattern.patterns.length +
    (allOptionals.map (fun o => o.patterns.length)).sum
  let allPatterns := info.pattern.patterns ++
    (allOptionals.map (fun o => o.patterns)).flatten
  let metaOptional := allOptionals.map (fun o => (o.id, o.patterns))
  let metaUnion := (info.pattern.unionBranches.getD []).map (fun b => b.patterns)
  let combos ← mapExcept (buildCombo info allOptionals options n)
    (List.range (2 ^ n - 1))
  .ok (⟨baseNr, baseHidden, hasHidden, info.vars, allPatterns, metaOptional,
    metaUnion, n, totalPatterns, combos⟩, c1)

/-- `transform_query` from lib.rs (lines 1948-1950). -/
def transform_query (fuel : Nat) (root : GraphPattern) (c : Counters) :
    Except String (TransformResultR × Counters) :=
  transform_query_with_options fuel root ⟨false⟩ c

-- =============================================================================
-- CONCRETE INSTANCES
-- =============================================================================

/-- xsd:integer datatype IRI. -/
def xsdInteger : String := "http://www.w3.org/2001/XMLSchema#integer"

/-- xsd:double datatype IRI. -/
def xsdDouble : String := "http://www.w3.org/2001/XMLSchema#double"

/-- xsd:string datatype IRI. -/
def xsdString : String := "http://www.w3.org/2001/XMLSchema#string"

/-- A `QueryInfo` with no projected variables and an empty pattern, used as
the context argument for filter-compilation instances. -/
def emptyQueryInfo : QueryInfo := ⟨[], .new⟩

/-- The default transform options (`skip_signing = false`). -/
def defOpts : TransformOptions := ⟨false⟩

/-- Parsed algebra of the specification's end-to-end example,
`SELECT ?s ?o WHERE { ?s <http://ex/knows> ?o . FILTER(?o > "3"^^xsd:integer) }`. -/
def c1Query : GraphPattern :=
  .project
    (.filter (.greater (.var "o") (.lit ⟨"3", none, xsdInteger⟩))
      (.bgp [⟨.var "s", .namedNode "http://ex/knows", .var "o"⟩]))
    ["s", "o"]

/-- Parsed algebra of `SELECT ?s ?o WHERE { ?s <http://ex/p>/<http://ex/q> ?o }`:
a sequence property path, whose expansion consumes one fresh variable. -/
def c2PathQuery : GraphPattern :=
  .project
    (.path (.var "s")
      (.sequence (.namedNode "http://ex/p") (.namedNode "http://ex/q"))
      (.var "o"))
    ["s", "o"]

/-- First compilation of the path query in a fresh process (both counters 0). -/
def c2FirstRun : Except String (TransformResultR × Counters) :=
  transform_query_with_options 100 c2PathQuery defOpts ⟨0, 0⟩

/-- Second compilation of the same query in the same process: the counter
state left by the first run is the input state of the second. -/
def c2SecondRun : Except String (TransformResultR × Counters) :=
  match c2FirstRun with
  | .ok (_, c1) => transform_query_with_options 100 c2PathQuery defOpts c1
  | .error e => .error e

/-- BGP with a join variable repeated in predicate position:
`?s ?p ?o . ?x ?p ?y`. -/
def c3Patterns : List TriplePat :=
  [⟨.var "s", .var "p", .var "o"⟩, ⟨.var "x", .var "p", .var "y"⟩]

/-- Parsed algebra of
`SELECT ?a ?b ?c ?d WHERE { ?a <p> ?b OPTIONAL { ?b <q> ?c OPTIONAL { ?c <r> ?d } } }`:
a nested optional block. -/
def c4NestedOptQuery : GraphPattern :=
  .project
    (.leftJoin (.bgp [⟨.var "a", .namedNode "http://ex/p", .var "b"⟩])
      (.leftJoin (.bgp [⟨.var "b", .namedNode "http://ex/q", .var "c"⟩])
        (.bgp [⟨.var "c", .namedNode "http://ex/r", .var "d"⟩]) none)
      none)
    ["a", "b", "c", "d"]

/-- The plain literal `"a"` (xsd:string, no language tag). -/
def litA : Lit := ⟨"a", none, xsdString⟩

/-- The full-encoding Noir expression of the literal `"a"`. -/
def litAEncoding : String :=
  "consts::hash2([2, consts::hash4([consts::encode_string(\"a\"), " ++
  "consts::encode_string(\"a\"), consts::encode_string(\"\"), " ++
  "consts::encode_string(\"http://www.w3.org/2001/XMLSchema#string\")])])"

/-- Are both operands float/double literals (the guard of the IEEE-754
constant-fold paths)? -/
def bothFloatLits : Expression → Expression → Bool
  | .lit la, .lit lb => isFloatDt la.datatype && isFloatDt lb.datatype
  | _, _ => false

/-- The term an operand expression lowers to when it is one of the three
simple shapes (variable / literal / IRI) that `expr_to_noir_code` accepts by
allocating an `expr_value` witness. -/
def simpleOperandTerm : Expression → Option Term
  | .var v => some (.var v)
  | .lit l => some (.static (.literal l))
  | .namedNode nn => some (.static (.namedNode nn))
  | _ => none

/-- Parsed algebra of
`SELECT ?s WHERE { { ?s <p> ?o . ?o <q> ?z } UNION { ?s <r> ?o } }`:
a two-branch union whose first branch has two triples. -/
def c7UnionQuery : GraphPattern :=
  .project
    (.union
      (.bgp [⟨.var "s", .namedNode "http://ex/p", .var "o"⟩,
             ⟨.var "o", .namedNode "http://ex/q", .var "z"⟩])
      (.bgp [⟨.var "s", .namedNode "http://ex/r", .var "o"⟩]))
    ["s"]

/-- The expected circuit text for `c7UnionQuery`. -/
def c7ExpectedNr : String :=
  "// Generated by sparql_noir transform\n" ++
  "use dep::consts;\n" ++
  "use dep::utils;\n" ++
  "use dep::types::Triple;\n" ++
  "\n" ++
  "pub(crate) type BGP = [Triple; 2];\n" ++
  "pub(crate) struct Variables \x7b\n" ++
  "  pub(crate) s: Field,\n" ++
  "\x7d\n\n" ++
  "pub(crate) fn checkBinding(bgp: BGP, variables: Variables) \x7b\n" ++
  "  let branch_0 = (variables.s == bgp[0].terms[0]) & " ++
    "(bgp[0].terms[2] == bgp[0].terms[2]) & " ++
    "(bgp[1].terms[2] == bgp[1].terms[2]) & " ++
    "(consts::hash2([0, consts::encode_string(\"http://ex/p\")]) == bgp[0].terms[1]) & " ++
    "(bgp[0].terms[2] == bgp[1].terms[0]) & " ++
    "(consts::hash2([0, consts::encode_string(\"http://ex/q\")]) == bgp[1].terms[1]);\n" ++
  "  let branch_1 = (variables.s == bgp[0].terms[0]) & " ++
    "(bgp[0].terms[2] == bgp[0].terms[2]) & " ++
    "(consts::hash2([0, consts::encode_string(\"http://ex/r\")]) == bgp[0].terms[1]);\n" ++
  "  assert(branch_0 | branch_1);\n" ++
  "\x7d\n"

/-- A three-branch nested union `{ {A} UNION {B} } UNION {C}` with branch
triple counts 2, 1, 1. -/
def c7NestedUnionQuery : GraphPattern :=
  .project
    (.union
      (.union
        (.bgp [⟨.var "s", .namedNode "http://ex/p", .var "o"⟩,
               ⟨.var "o", .namedNode "http://ex/q", .var "z"⟩])
        (.bgp [⟨.var "s", .namedNode "http://ex/r", .var "o"⟩]))
      (.bgp [⟨.var "s", .namedNode "http://ex/t", .var "o"⟩]))
    ["s"]

/-- Parsed algebra of `SELECT ?s ?o WHERE { ?s <a> ?x OPTIONAL { ?x <b> ?o } }`:
one optional block binding `?o` inside it only. -/
def c8OptQuery : GraphPattern :=
  .project
    (.leftJoin (.bgp [⟨.var "s", .namedNode "http://ex/a", .var "x"⟩])
      (.bgp [⟨.var "x", .namedNode "http://ex/b", .var "o"⟩]) none)
    ["s", "o"]

/-- Declarative reading of "appears only in unmatched blocks' bindings". -/
def appearsOnlyInUnmatched (info : QueryInfo) (allOptionals : List OptionalBlock)
    (matched : List Nat) (v : String) : Prop :=
  (∃ p ∈ allOptionals.enum, ¬ matched.contains p.1 ∧
    v ∈ p.2.bindings.map (fun b => b.varName)) ∧
  v ∉ info.pattern.bindings.map (fun b => b.varName) ∧
  (∀ idx ∈ matched, ∀ opt, allOptionals.get? idx = some opt →
    v ∉ opt.bindings.map (fun b => b.varName))

/-- Clear a union branch's optional-block list (the part of a branch the
emitter never reads). -/
def clearBranchOptionals : PatternInfo → PatternInfo
  | .mk p b a f u _ => .mk p b a f u []

/-- Parsed algebra of
`SELECT ?s WHERE { { ?s <a> ?o OPTIONAL { ?o <opt> ?z } } UNION { ?s <b> ?o } }`:
an OPTIONAL inside a UNION branch. -/
def c10Query : GraphPattern :=
  .project
    (.union
      (.leftJoin (.bgp [⟨.var "s", .namedNode "http://ex/a", .var "o"⟩])
        (.bgp [⟨.var "o", .namedNode "http://ex/opt", .var "z"⟩]) none)
      (.bgp [⟨.var "s", .namedNode "http://ex/b", .var "o"⟩]))
    ["s"]

/-- The Noir reference to the `n`-th hidden witness, as `expr_to_noir_code`
renders it. -/
def hiddenRef (n : Nat) : String := "hidden[" ++ toString n ++ "]"

-- =============================================================================
-- HELPER LEMMAS
-- =============================================================================

/-- Success of `mapExcept` preserves length. -/
theorem mapExcept_length {α β : Type} (f : α → Except String β) :
    ∀ (l : List α) (ys : List β), mapExcept f l = .ok ys → ys.length = l.length := by
  intro l
  induction l with
  | nil => intro ys h; simp [mapExcept] at h; simp [← h]
  | cons x xs ih =>
    intro ys h
    simp only [mapExcept, bind, Except.bind] at h
    cases hx : f x with
    | error e => rw [hx] at h; exact absurd h (by simp)
    | ok y =>
      rw [hx] at h
      cases hxs : mapExcept f xs with
      | error e => rw [hxs] at h; exact absurd h (by simp)
      | ok ys2 =>
        rw [hxs] at h
        cases h
        simp [ih ys2 hxs]

/-- Mapping a successful `mapExcept` result when each output determines the
mapped value from its input. -/
theorem mapExcept_map {α β γ : Type} (f : α → Except String β) (g : β → γ)
    (gf : α → γ) (hfg : ∀ x y, f x = .ok y → g y = gf x) :
    ∀ (l : List α) (ys : List β), mapExcept f l = .ok ys →
      ys.map g = l.map gf := by
  intro l
  induction l with
  | nil => intro ys h; simp [mapExcept] at h; simp [← h]
  | cons x xs ih =>
    intro ys h
    simp only [mapExcept, bind, Except.bind] at h
    cases hx : f x with
    | error e => rw [hx] at h; exact absurd h (by simp)
    | ok y =>
      rw [hx] at h
      cases hxs : mapExcept f xs with
      | error e => rw [hxs] at h; exact absurd h (by simp)
      | ok ys2 =>
        rw [hxs] at h
        cases h
        simp [hfg x y hx, ih ys2 hxs]

/-- A successfully built combination circuit records exactly the matched-index
list of its bit mask. -/
theorem buildCombo_matched (info : QueryInfo) (allOpt : List OptionalBlock)
    (opts : TransformOptions) (n combo : Nat) (oc : OptionalCircuitR)
    (h : buildCombo info allOpt opts n combo = .ok oc) :
    oc.matchedOptionals = matchedIndicesOf combo n := by
  simp only [buildCombo, bind, Except.bind] at h
  cases hg : generate_circuit_for_optional_combination info allOpt
      (matchedIndicesOf combo n) opts with
  | error e => rw [hg] at h; exact absurd h (by simp)
  | ok g3 =>
    rw [hg] at h
    obtain ⟨nr, hid, hh⟩ := g3
    cases h
    rfl

/-- `clearBranchOptionals` keeps a branch's patterns. -/
theorem clearBranch_patterns (b : PatternInfo) :
    (clearBranchOptionals b).patterns = b.patterns := by
  cases b; rfl

/-- `clearBranchOptionals` keeps a branch's bindings. -/
theorem clearBranch_bindings (b : PatternInfo) :
    (clearBranchOptionals b).bindings = b.bindings := by
  cases b; rfl

/-- `clearBranchOptionals` keeps a branch's assertions. -/
theorem clearBranch_assertions (b : PatternInfo) :
    (clearBranchOptionals b).assertions = b.assertions := by
  cases b; rfl

/-- `clearBranchOptionals` keeps a branch's filters. -/
theorem clearBranch_filters (b : PatternInfo) :
    (clearBranchOptionals b).filters = b.filters := by
  cases b; rfl

/-- Membership in the hash-set model after an insert. -/
theorem mem_insertSet (s : List String) (x v : String) :
    v ∈ insertSet s x ↔ v ∈ s ∨ v = x := by
  by_cases h : s.contains x
  · have hx : x ∈ s := by simpa using h
    simp only [insertSet, if_pos h]
    constructor
    · exact fun hv => Or.inl hv
    · rintro (hv | rfl)
      · exact hv
      · exact hx
  · have hx : ¬ x ∈ s := by simpa using h
    simp [insertSet, hx, List.mem_append]

/-- Membership after inserting all binding variables of a block. -/
theorem mem_foldl_insertBindings (v : String) :
    ∀ (bs : List Binding) (s : List String),
      v ∈ bs.foldl (fun s2 b => insertSet s2 b.varName) s ↔
        v ∈ s ∨ v ∈ bs.map (fun b => b.varName) := by
  intro bs
  induction bs with
  | nil => intro s; simp
  | cons b rest ih =>
    intro s
    simp only [List.foldl_cons, List.map_cons, List.mem_cons]
    rw [ih, mem_insertSet]
    tauto

/-- Membership after removing all binding variables of a list. -/
theorem mem_foldl_filterRemove (v : String) :
    ∀ (bs : List Binding) (s : List String),
      v ∈ bs.foldl (fun s2 b => s2.filter (fun x => x ≠ b.varName)) s ↔
        v ∈ s ∧ v ∉ bs.map (fun b => b.varName) := by
  intro bs
  induction bs with
  | nil => intro s; simp
  | cons b rest ih =>
    intro s
    simp only [List.foldl_cons, List.map_cons, List.mem_cons]
    rw [ih]
    simp only [List.mem_filter, decide_eq_true_eq]
    tauto

/-- Membership after collecting the binding variables of every unmatched
block (the first fold of `optionalOnlyVars`). -/
theorem mem_foldl_unmatched (v : String) (matched : List Nat) :
    ∀ (l : List (Nat × OptionalBlock)) (s : List String),
      v ∈ l.foldl
        (fun s2 p =>
          if matched.contains p.1 then s2
          else p.2.bindings.foldl (fun s3 b => insertSet s3 b.varName) s2) s ↔
      v ∈ s ∨ ∃ p ∈ l, ¬ matched.contains p.1 ∧
        v ∈ p.2.bindings.map (fun b => b.varName) := by
  intro l
  induction l with
  | nil => intro s; simp
  | cons p rest ih =>
    intro s
    simp only [List.foldl_cons, List.mem_cons]
    by_cases hp : matched.contains p.1
    · rw [if_pos hp, ih]
      constructor
      · rintro (hv | ⟨p2, hp2, hnm, hvm⟩)
        · exact Or.inl hv
        · exact Or.inr ⟨p2, Or.inr hp2, hnm, hvm⟩
      · rintro (hv | ⟨p2, hp2 | hp2, hnm, hvm⟩)
        · exact Or.inl hv
        · subst hp2; exact absurd hp hnm
        · exact Or.inr ⟨p2, hp2, hnm, hvm⟩
    · rw [if_neg hp, ih, mem_foldl_insertBindings]
      constructor
      · rintro ((hv | hvm) | ⟨p2, hp2, hnm, hvm⟩)
        · exact Or.inl hv
        · exact Or.inr ⟨p, Or.inl rfl, hp, hvm⟩
        · exact Or.inr ⟨p2, Or.inr hp2, hnm, hvm⟩
      · rintro (hv | ⟨p2, hp2 | hp2, hnm, hvm⟩)
        · exact Or.inl (Or.inl hv)
        · subst hp2; exact Or.inl (Or.inr hvm)
        · exact Or.inr ⟨p2, hp2, hnm, hvm⟩

/-- Membership after removing the binding variables of every matched block
(the last fold of `optionalOnlyVars`). -/
theorem mem_foldl_matchedRemove (v : String) (allOpt : List OptionalBlock) :
    ∀ (matched : List Nat) (s : List String),
      v ∈ matched.foldl
        (fun s2 idx =>
          match allOpt.get? idx with
          | some opt =>
            opt.bindings.foldl (fun s3 b => s3.filter (fun x => x ≠ b.varName)) s2
          | none => s2) s ↔
      v ∈ s ∧ ∀ idx ∈ matched, ∀ opt, allOpt.get? idx = some opt →
        v ∉ opt.bindings.map (fun b => b.varName) := by
  intro matched
  induction matched with
  | nil => intro s; simp
  | cons idx rest ih =>
    intro s
    simp only [List.foldl_cons, List.mem_cons]
    cases hg : allOpt.get? idx with
    | none =>
      rw [ih]
      constructor
      · rintro ⟨hv, hrest⟩
        refine ⟨hv, ?_⟩
        rintro i (rfl | hi) opt hopt
        · rw [hg] at hopt; cases hopt
        · exact hrest i hi opt hopt
      · rintro ⟨hv, hall⟩
        exact ⟨hv, fun i hi opt hopt => hall i (Or.inr hi) opt hopt⟩
    | some opt0 =>
      rw [ih, mem_foldl_filterRemove]
      constructor
      · rintro ⟨⟨hv, hnm⟩, hrest⟩
        refine ⟨hv, ?_⟩
        rintro i (rfl | hi) opt hopt
        · rw [hg] at hopt; cases hopt; exact hnm
        · exact hrest i hi opt hopt
      · rintro ⟨hv, hall⟩
        exact ⟨⟨hv, hall idx (Or.inl rfl) opt0 hg⟩,
          fun i hi opt hopt => hall i (Or.inr hi) opt hopt⟩

/-- `expr_to_noir_code` on a simple operand (variable / literal / IRI):
allocate one `expr_value` witness and reference it. -/
theorem expr_to_noir_code_simple (e : Expression) (t : Term) (q : QueryInfo)
    (m : List (String × Term)) (hidden : List HiddenEntry)
    (h : simpleOperandTerm e = some t) :
    expr_to_noir_code e q m hidden =
      .ok (hiddenRef hidden.length, hidden ++ [.single kExprValue t]) := by
  cases e <;> try exact Option.noConfusion h
  all_goals simp only [simpleOperandTerm, Option.some.injEq] at h
  all_goals subst h
  all_goals rfl

set_option maxRecDepth 200000
set_option maxHeartbeats 2000000

-- =============================================================================
-- CLAIM THEOREMS
-- =============================================================================

/-- C1, counterexample.  For the spec's end-to-end example query
`SELECT ?s ?o WHERE { ?s <http://ex/knows> ?o . FILTER(?o > "3"^^xsd:integer) }`,
the claim asserts the generated circuit contains an assertion proving the
object witness re-encodes (via `hash2([2, hash4([...])])`) to the object's
term encoding, and a final comparison `(witness as integer) > 3`.  The circuit
lib.rs actually emits contains no `consts::hash4` text at all (hence no
re-encoding proof obligation), and its final comparison is between the two
witnesses, `(hidden[0] as i64) > (hidden[1] as i64)` — the right-hand constant
`3` is itself lowered to witness `hidden[1]`. -/
theorem C1_counterexample :
    (transform_query_with_options 100 c1Query defOpts ⟨0, 0⟩).toOption.map
      (fun p => (strContains p.1.sparqlNr "consts::hash4",
                 strContains p.1.sparqlNr "(hidden[0] as i64) > (hidden[1] as i64)",
                 p.1.hiddenInputs.length,
                 p.1.hiddenInputs.map (fun h => h.kind))) =
      some (false, true, 2, ["expr_value", "expr_value"]) := by decide

/-- C1, amended.  For a numeric FILTER comparison whose operands are simple
(variable / literal / IRI) and not both float/double literals, the expression
compiler of lib.rs requests one hidden `expr_value` witness per operand and
emits a single constraint comparing the two witnesses as signed 64-bit
integers — the complete output is that comparison and the two witness
requests, i.e. no re-encoding proof obligation accompanies them, and a
statically known right operand is also lowered to a witness rather than an
inline constant. -/
theorem C1_thm (a b : Expression) (q : QueryInfo) (m : List (String × Term))
    (hidden : List HiddenEntry) (ta tb : Term)
    (ha : simpleOperandTerm a = some ta) (hb : simpleOperandTerm b = some tb)
    (hf : bothFloatLits a b = false) :
    numeric_comparison (.greater a b) a b q m hidden =
      .ok ("(" ++ hiddenRef hidden.length ++ " as i64) > (" ++
           hiddenRef (hidden.length + 1) ++ " as i64)",
           hidden ++ [.single kExprValue ta, .single kExprValue tb]) ∧
    numeric_comparison (.greaterOrEqual a b) a b q m hidden =
      .ok ("(" ++ hiddenRef hidden.length ++ " as i64) >= (" ++
           hiddenRef (hidden.length + 1) ++ " as i64)",
           hidden ++ [.single kExprValue ta, .single kExprValue tb]) ∧
    numeric_comparison (.less a b) a b q m hidden =
      .ok ("(" ++ hiddenRef hidden.length ++ " as i64) < (" ++
           hiddenRef (hidden.length + 1) ++ " as i64)",
           hidden ++ [.single kExprValue ta, .single kExprValue tb]) ∧
    numeric_comparison (.lessOrEqual a b) a b q m hidden =
      .ok ("(" ++ hiddenRef hidden.length ++ " as i64) <= (" ++
           hiddenRef (hidden.length + 1) ++ " as i64)",
           hidden ++ [.single kExprValue ta, .single kExprValue tb]) := by
  refine ⟨?_, ?_, ?_, ?_⟩ <;>
  · cases a <;> try exact Option.noConfusion ha
    all_goals cases b <;> try exact Option.noConfusion hb
    all_goals simp only [simpleOperandTerm, Option.some.injEq] at ha hb
    all_goals subst ha
    all_goals subst hb
    all_goals
      first
      | (simp [numeric_comparison, expr_to_noir_code, push_hidden, hiddenRef,
          bind, Except.bind]
         done)
      | (rename_i la lb
         simp only [bothFloatLits] at hf
         have hnc : ¬ (isFloatDt la.datatype = true ∧ isFloatDt lb.datatype = true) := by
           intro hc
           rw [hc.1, hc.2] at hf
           exact Bool.noConfusion hf
         simp [numeric_comparison, expr_to_noir_code, push_hidden, hiddenRef,
           bind, Except.bind, hnc])

/-- C1, witness: the amended theorem at the example's operands
`?o > "3"^^xsd:integer` with an empty context. -/
theorem C1_witness :
    simpleOperandTerm (.var "o") = some (.var "o") ∧
    simpleOperandTerm (.lit ⟨"3", none, xsdInteger⟩) =
      some (.static (.literal ⟨"3", none, xsdInteger⟩)) ∧
    bothFloatLits (.var "o") (.lit ⟨"3", none, xsdInteger⟩) = false ∧
    numeric_comparison
      (.greater (.var "o") (.lit ⟨"3", none, xsdInteger⟩))
      (.var "o") (.lit ⟨"3", none, xsdInteger⟩) emptyQueryInfo [] [] =
      .ok ("(" ++ hiddenRef 0 ++ " as i64) > (" ++ hiddenRef 1 ++ " as i64)",
           [.single kExprValue (.var "o"),
            .single kExprValue (.static (.literal ⟨"3", none, xsdInteger⟩))]) :=
  ⟨rfl, rfl, rfl,
    (C1_thm (.var "o") (.lit ⟨"3", none, xsdInteger⟩) emptyQueryInfo [] []
      (.var "o") (.static (.literal ⟨"3", none, xsdInteger⟩)) rfl rfl rfl).1⟩

/-- C3.  The claim says every repeated occurrence of a variable, in any of
the three positions including the predicate position, produces an Assertion
equating the variable with that positional Input.  Evaluating the BGP
compiler on `?s ?p ?o . ?x ?p ?y` (the second triple re-uses `?p` in
predicate position): the repeated `?p` produces NO assertion (and no
binding) — the assertion list is empty, where the claim requires
`Assertion(Variable "p", Input(1,1))`.  The second conjunct shows the
contrast: a variable repeated in object position does produce the claimed
assertion, so the predicate arm's missing else-branch is a slip, not a
design choice. -/
theorem C3_thm :
    process_patterns c3Patterns =
      .ok (.mk
        [⟨⟨.var "s", .var "p", .var "o"⟩, .default⟩,
         ⟨⟨.var "x", .var "p", .var "y"⟩, .default⟩]
        [⟨"s", .input 0 0⟩, ⟨"p", .input 0 1⟩, ⟨"o", .input 0 2⟩,
         ⟨"x", .input 1 0⟩, ⟨"y", .input 1 2⟩]
        [] [] none []) ∧
    process_patterns [⟨.var "s", .namedNode "http://ex/p", .var "s"⟩] =
      .ok (.mk
        [⟨⟨.var "s", .namedNode "http://ex/p", .var "s"⟩, .default⟩]
        [⟨"s", .input 0 0⟩]
        [⟨.static (.namedNode "http://ex/p"), .input 0 1⟩,
         ⟨.var "s", .input 0 2⟩]
        [] none []) := ⟨rfl, rfl⟩

/-- C5.  The claim (and the spec's "must match exactly" IEEE-754 table)
requires two normal finite values to compare by numeric value, so
`"-2.0" < "-1.0"` (both xsd:double) must fold to `true`.  lib.rs stores a
normal value as `f64::to_bits(f) as i64` and compares those signed bit
patterns, which REVERSES the order of two negative values: the fold yields
`false` for `-2.0 < -1.0` and `true` for `-1.0 < -2.0`.  The remaining
conjuncts evaluate the special-value rows of the claim, which the code gets
right (NaN always false, `+0.0 = -0.0` true, `-INF`/`+INF` ordered against
normals), isolating the bug to the `Normal`/`Normal` bit-pattern branch. -/
theorem C5_thm :
    filter_to_noir (.less (.lit ⟨"-2.0", none, xsdDouble⟩) (.lit ⟨"-1.0", none, xsdDouble⟩))
      emptyQueryInfo [] [] = .ok ("false", []) ∧
    filter_to_noir (.less (.lit ⟨"-1.0", none, xsdDouble⟩) (.lit ⟨"-2.0", none, xsdDouble⟩))
      emptyQueryInfo [] [] = .ok ("true", []) ∧
    parse_float_special "-2.0" xsdDouble = .normal (-4611686018427387904) ∧
    parse_float_special "-1.0" xsdDouble = .normal (-4616189618054758400) ∧
    ieee754_less_than (.normal (-4611686018427387904)) (.normal (-4616189618054758400)) =
      some false ∧
    (filter_to_noir (.less (.lit ⟨"NaN", none, xsdDouble⟩) (.lit ⟨"1000000.0", none, xsdDouble⟩))
      emptyQueryInfo [] []).toOption.map (fun p => p.1) = some "false" ∧
    (filter_to_noir (.less (.lit ⟨"1000000.0", none, xsdDouble⟩) (.lit ⟨"NaN", none, xsdDouble⟩))
      emptyQueryInfo [] []).toOption.map (fun p => p.1) = some "false" ∧
    (filter_to_noir (.equal (.lit ⟨"NaN", none, xsdDouble⟩) (.lit ⟨"NaN", none, xsdDouble⟩))
      emptyQueryInfo [] []).toOption.map (fun p => p.1) = some "false" ∧
    (filter_to_noir (.equal (.lit ⟨"+0.0", none, xsdDouble⟩) (.lit ⟨"-0.0", none, xsdDouble⟩))
      emptyQueryInfo [] []).toOption.map (fun p => p.1) = some "true" ∧
    (filter_to_noir (.less (.lit ⟨"-INF", none, xsdDouble⟩) (.lit ⟨"-1000000.0", none, xsdDouble⟩))
      emptyQueryInfo [] []).toOption.map (fun p => p.1) = some "true" ∧
    (filter_to_noir (.greater (.lit ⟨"INF", none, xsdDouble⟩) (.lit ⟨"1000000.0", none, xsdDouble⟩))
      emptyQueryInfo [] []).toOption.map (fun p => p.1) = some "true" := by
  refine ⟨rfl, rfl, rfl, rfl, rfl, ?_, ?_, ?_, ?_, ?_, ?_⟩ <;> decide

/-- C2.  `transform_query_with_options` resets only the optional-block
counter; the fresh path-expansion variable counter (`VAR_COUNTER`, used by
`fresh_variable`) is never reset.  Compiling the same sequence-path query
twice in one process therefore produces different metadata: the first run
names the path's intermediate variable `__v0` and leaves the counter at 1, so
the second run names it `__v1`, and the two metadata pattern lists (which
embed those variable names) are not byte-identical — refuting both the
determinism claim and the claimed reset of both counters. -/
theorem C2_thm :
    (c2FirstRun.toOption.map (fun p => (p.1.metaInputPatterns, p.2))) =
      some ([⟨⟨.var "s", .namedNode "http://ex/p", .var "__v0"⟩, .default⟩,
             ⟨⟨.var "__v0", .namedNode "http://ex/q", .var "o"⟩, .default⟩],
            ⟨1, 0⟩) ∧
    (c2SecondRun.toOption.map (fun p => (p.1.metaInputPatterns, p.2))) =
      some ([⟨⟨.var "s", .namedNode "http://ex/p", .var "__v1"⟩, .default⟩,
             ⟨⟨.var "__v1", .namedNode "http://ex/q", .var "o"⟩, .default⟩],
            ⟨2, 0⟩) ∧
    (c2FirstRun.toOption.map (fun p => p.1.metaInputPatterns)) ≠
      (c2SecondRun.toOption.map (fun p => p.1.metaInputPatterns)) := by
  refine ⟨by decide, by decide, by decide⟩

/-- C4.  For the nested-optional query
`?a <p> ?b OPTIONAL { ?b <q> ?c OPTIONAL { ?c <r> ?d } }` the flattened block
list is [outer (triple 1), inner (triple 2, indices shifted by the outer
offset)].  The variant matching only the inner block (mask `[1]`, third
generated combination) has an input-triple array of size 2
(`type BGP = [Triple; 2]`) yet its circuit references `bgp[2]` — an
`Input(2,_)` term at emission time with input-triple count 2, violating the
index invariant the claim states for every variant. -/
theorem C4_thm :
    (transform_query_with_options 100 c4NestedOptQuery defOpts ⟨0, 0⟩).toOption.map
      (fun p => p.1.optionalCircuits.map (fun oc =>
        (oc.matchedOptionals, oc.metaInputPatterns.length,
         strContains oc.sparqlNr "bgp[2]",
         strContains oc.sparqlNr "type BGP = [Triple; 2]"))) =
      some [([], 1, false, false), ([0], 2, false, true), ([1], 2, true, true)] := by
  decide

/-- C6, counterexample.  The claim says that when both operands of `=` or
`sameTerm` are statically known ground terms the compiled constraint is the
compile-time constant `true`/`false` given by structural equality.  For the
identical plain literal `"a"` on both sides: `sameTerm` emits the equality of
the two (identical) full term encodings — not a constant — and `=` emits an
equality between two freshly allocated `expr_value` witnesses, also not a
constant and not an equality of term encodings. -/
theorem C6_counterexample :
    filter_to_noir (.sameTerm (.lit litA) (.lit litA)) emptyQueryInfo [] [] =
      .ok (litAEncoding ++ " == " ++ litAEncoding, []) ∧
    (litAEncoding ++ " == " ++ litAEncoding) ≠ "true" ∧
    (litAEncoding ++ " == " ++ litAEncoding) ≠ "false" ∧
    (filter_to_noir (.equal (.lit litA) (.lit litA)) emptyQueryInfo [] []).toOption.map
      (fun p => p.1) = some "hidden[0] == hidden[1]" := by
  refine ⟨by rfl, by decide, by decide, by decide⟩

/-- C6, amended.  `sameTerm(a, b)` always emits equality of the two operands'
serialized terms (full encodings for ground terms) and never constant-folds;
`a = b` (after the accessor-function special cases) lowers each operand to an
`expr_value` hidden witness and emits equality of the two witnesses,
constant-folding only when both operands are float/double literals (by
IEEE-754 equality, not structural equality). -/
theorem C6_thm (a b : Expression) (q : QueryInfo) (m : List (String × Term))
    (hidden : List HiddenEntry) (ta tb : Term)
    (ha : expr_to_term a = .ok ta) (hb : expr_to_term b = .ok tb) :
    filter_to_noir (.sameTerm a b) q m hidden =
      .ok (serialize_term (m.length + 1) ta q m ++ " == " ++
           serialize_term (m.length + 1) tb q m, hidden) ∧
    (∀ (la lb : Lit), (isFloatDt la.datatype && isFloatDt lb.datatype) = false →
      filter_to_noir (.equal (.lit la) (.lit lb)) q m hidden =
        .ok (hiddenRef hidden.length ++ " == " ++ hiddenRef (hidden.length + 1),
             hidden ++ [.single kExprValue (.static (.literal la)),
                        .single kExprValue (.static (.literal lb))])) := by
  constructor
  · simp only [filter_to_noir, ha, hb, bind, Except.bind]
  · intro la lb hff
    have hnc : ¬ (isFloatDt la.datatype = true ∧ isFloatDt lb.datatype = true) := by
      intro hc
      rw [hc.1, hc.2] at hff
      exact Bool.noConfusion hff
    simp only [filter_to_noir, handle_function_equality, expr_to_noir_code,
      push_hidden, bind, Except.bind]
    rw [if_neg hnc]
    simp [hiddenRef]

/-- C6, witness: the amended theorem at the identical plain literal `"a"` on
both sides. -/
theorem C6_witness :
    expr_to_term (.lit litA) = .ok (.static (.literal litA)) ∧
    filter_to_noir (.sameTerm (.lit litA) (.lit litA)) emptyQueryInfo [] [] =
      .ok (serialize_term 1 (.static (.literal litA)) emptyQueryInfo [] ++ " == " ++
           serialize_term 1 (.static (.literal litA)) emptyQueryInfo [], []) :=
  ⟨rfl,
    (C6_thm (.lit litA) (.lit litA) emptyQueryInfo [] []
      (.static (.literal litA)) (.static (.literal litA)) rfl rfl).1⟩

/-- C7.  UNION compilation: (i) for the claim's example
`{A} UNION {B}` with A = 2 triples and B = 1 triple, the emitted circuit is
exactly the text below — its input-triple array is sized to the longer branch
(`[Triple; 2]`), each branch is the big-AND of its binding equalities,
assertions and filters, and the single top-level assertion is
`assert(branch_0 | branch_1)`; (ii) nested unions are flattened: a
`{ {A} UNION {B} } UNION {C}` query yields three independently compiled
branches (and an input array still sized 2); (iii) flattening is associative
concatenation of branch lists for every operand shape. -/
theorem C7_thm :
    (transform_query_with_options 100 c7UnionQuery defOpts ⟨0, 0⟩).toOption.map
      (fun p => p.1.sparqlNr) = some c7ExpectedNr ∧
    (transform_query_with_options 100 c7NestedUnionQuery defOpts ⟨0, 0⟩).toOption.map
      (fun p => (p.1.metaUnionBranches.length, p.1.metaInputPatterns.length,
                 p.1.metaUnionBranches.map (fun b => b.length))) =
      some (3, 2, [2, 1, 1]) ∧
    (∀ g1 g2 g3 : GraphPattern,
      flattenUnion (.union (.union g1 g2) g3) =
        flattenUnion g1 ++ flattenUnion g2 ++ flattenUnion g3) := by
  refine ⟨by decide, by decide, ?_⟩
  intro g1 g2 g3
  simp [flattenUnion]

/-- C9, counterexample.  The claim requires every unsupported filter/bind
expression to produce an error that includes the offending expression.  The
BIND path refutes it: an `Extend` whose right-hand side is outside the
supported shapes (variable / IRI / literal) aborts with the fixed message
`Unsupported BIND expression` — the error text does not contain the rendering
of the offending expression (here `Add(Variable(a), Variable(b))`), nor even
its constructor name, and the same bare message is what the whole compilation
returns. -/
theorem C9_counterexample :
    process_graph_pattern 10
      (.extend (.bgp []) "x" (.add (.var "a") (.var "b"))) ⟨0, 0⟩ =
      .error "Unsupported BIND expression" ∧
    strContains "Unsupported BIND expression"
      (reprExpr (.add (.var "a") (.var "b"))) = false ∧
    strContains "Unsupported BIND expression" "Add" = false ∧
    transform_query_with_options 10
      (.project (.extend (.bgp []) "x" (.add (.var "a") (.var "b"))) ["x"])
      defOpts ⟨0, 0⟩ = .error "Unsupported BIND expression" := by
  refine ⟨rfl, by decide, by decide, rfl⟩

/-- C9, amended.  Unsupported shapes are rejected with a terminal error, and
for every case except one that error embeds the offending construct: MINUS,
GROUP BY (aggregation), SERVICE and nested Project (subqueries) hit the
pattern fallback, which renders the pattern; Kleene star/plus and negated
property sets hit the path fallback, which renders the path (also via a Path
node); unsupported filter expressions and functions hit the filter fallbacks,
which render the expression or function.  The one exception, forced by the
counterexample: an unsupported BIND (Extend) right-hand side aborts with the
fixed message `Unsupported BIND expression`, carrying no expression context.
In every case the error aborts the whole compilation: a query containing
MINUS — or an unsupported BIND body — makes `transform_query_with_options`
return exactly that error, an `Err` carrying no partial output. -/
theorem C9_thm :
    (∀ (fuel : Nat) (l r : GraphPattern) (c : Counters),
      process_graph_pattern (fuel + 1) (.minus l r) c =
        .error ("Unsupported graph pattern: " ++ reprGraphPattern (.minus l r))) ∧
    (∀ (fuel : Nat) (inner : GraphPattern) (c : Counters),
      process_graph_pattern (fuel + 1) (.group inner) c =
        .error ("Unsupported graph pattern: " ++ reprGraphPattern (.group inner))) ∧
    (∀ (fuel : Nat) (nm : NamedNodePat) (inner : GraphPattern) (c : Counters),
      process_graph_pattern (fuel + 1) (.service nm inner) c =
        .error ("Unsupported graph pattern: " ++ reprGraphPattern (.service nm inner))) ∧
    (∀ (fuel : Nat) (inner : GraphPattern) (vs : List String) (c : Counters),
      process_graph_pattern (fuel + 1) (.project inner vs) c =
        .error ("Unsupported graph pattern: " ++ reprGraphPattern (.project inner vs))) ∧
    (∀ (s o : TermPat) (p : PropPath) (vc : Nat),
      expand_path s (.zeroOrMore p) o vc =
        .error ("Unsupported path expression: " ++ reprPath (.zeroOrMore p))) ∧
    (∀ (s o : TermPat) (p : PropPath) (vc : Nat),
      expand_path s (.oneOrMore p) o vc =
        .error ("Unsupported path expression: " ++ reprPath (.oneOrMore p))) ∧
    (∀ (s o : TermPat) (iris : List String) (vc : Nat),
      expand_path s (.negated iris) o vc =
        .error ("Unsupported path expression: " ++ reprPath (.negated iris))) ∧
    (∀ (fuel : Nat) (s o : TermPat) (p : PropPath) (c : Counters),
      process_graph_pattern (fuel + 1) (.path s (.zeroOrMore p) o) c =
        .error ("Unsupported path expression: " ++ reprPath (.zeroOrMore p))) ∧
    (∀ (a b : Expression) (q : QueryInfo) (m : List (String × Term))
        (h : List HiddenEntry),
      filter_to_noir (.add a b) q m h =
        .error ("Unsupported filter expression: " ++ reprExpr (.add a b))) ∧
    (∀ (nm : String) (args : List Expression) (q : QueryInfo)
        (m : List (String × Term)) (h : List HiddenEntry),
      filter_to_noir (.functionCall (.other nm) args) q m h =
        .error ("Unsupported function: " ++ nm)) ∧
    (∀ (fuel : Nat) (l r : GraphPattern) (vs : List String)
        (opts : TransformOptions) (c : Counters),
      transform_query_with_options (fuel + 1) (.project (.minus l r) vs) opts c =
        .error ("Unsupported graph pattern: " ++ reprGraphPattern (.minus l r))) ∧
    (∀ (fuel : Nat) (a b : Expression) (v : String) (c : Counters),
      process_graph_pattern (fuel + 2) (.extend (.bgp []) v (.add a b)) c =
        .error "Unsupported BIND expression") ∧
    (∀ (fuel : Nat) (a b : Expression) (v : String) (vs : List String)
        (opts : TransformOptions) (c : Counters),
      transform_query_with_options (fuel + 2)
        (.project (.extend (.bgp []) v (.add a b)) vs) opts c =
        .error "Unsupported BIND expression") := by
  refine ⟨?_, ?_, ?_, ?_, ?_, ?_, ?_, ?_, ?_, ?_, ?_, ?_, ?_⟩ <;>
    intros <;> rfl

/-- C10.  (i) The Union arm of the pattern compiler always returns a
`PatternInfo` whose optional-block list is empty (and whose top-level
binding/assertion/filter lists are empty — all branch content lives in the
branch list); (ii) the emitter reads only a branch's bindings, assertions and
filters, never its optional blocks: clearing every branch's optional blocks
leaves the emitted branch constraints (and threaded hidden schedule)
unchanged; (iii) end to end, the query
`{ ?s <a> ?o OPTIONAL { ?o <opt> ?z } } UNION { ?s <b> ?o }` compiles with
zero collected optional blocks, zero optional-combination variants, empty
optional-block metadata, and a circuit that never mentions the optional
triple's predicate `<http://ex/opt>`. -/
theorem C10_thm :
    (∀ (fuel : Nat) (l r : GraphPattern) (c : Counters),
      match process_graph_pattern (fuel + 1) (.union l r) c with
      | .ok (info, _) =>
        info.optionalBlocks = [] ∧ info.bindings = [] ∧
        info.assertions = [] ∧ info.filters = []
      | .error _ => True) ∧
    (∀ (branches : List PatternInfo) (q : QueryInfo)
        (baseMap : List (String × Term)) (hidden : List HiddenEntry),
      compileUnionBranches (branches.map clearBranchOptionals) q baseMap hidden =
        compileUnionBranches branches q baseMap hidden) ∧
    ((transform_query_with_options 100 c10Query defOpts ⟨0, 0⟩).toOption.map
      (fun p => (p.1.numOptionals, p.1.optionalCircuits.length,
                 p.1.metaOptionalPatterns.length,
                 strContains p.1.sparqlNr "http://ex/opt")) =
      some (0, 0, 0, false)) := by
  refine ⟨?_, ?_, by decide⟩
  · intro fuel l r c
    cases hb : processUnionBranches fuel (flattenUnion (.union l r)) c with
    | error e => simp [process_graph_pattern, hb, bind, Except.bind]
    | ok res =>
      obtain ⟨branches, c1⟩ := res
      simp [process_graph_pattern, hb, bind, Except.bind, PatternInfo.optionalBlocks,
        PatternInfo.bindings, PatternInfo.assertions, PatternInfo.filters]
  · intro branches q baseMap
    induction branches with
    | nil => intro hidden; rfl
    | cons b rest ih =>
      intro hidden
      simp only [List.map_cons, compileUnionBranches, clearBranch_bindings,
        clearBranch_assertions, clearBranch_filters, ih]

/-- C8.  (i) Every successful compilation emits exactly `2^N - 1` secondary
optional-combination variants (`N` = number of flattened optional blocks,
recorded as `numOptionals`), whose matched-id subsets are precisely the bit
masks `0 .. 2^N - 2` — every subset except the all-matched one, which is the
canonical/primary circuit; (ii) the projected-variable filter is exactly the
declarative rule of the claim: a variable is removed iff it appears in some
unmatched block's bindings but in neither the base pattern's bindings nor any
matched block's bindings, i.e. iff it appears only in unmatched blocks'
bindings; (iii) end to end, for
`SELECT ?s ?o WHERE { ?s <a> ?x OPTIONAL { ?x <b> ?o } }` the single
secondary variant (optional unmatched) projects only `s` — the variable `o`,
bound only inside the unmatched block, is absent. -/
theorem C8_thm :
    (∀ (fuel : Nat) (root : GraphPattern) (opts : TransformOptions) (c : Counters),
      match transform_query_with_options fuel root opts c with
      | .ok (r, _) =>
        r.optionalCircuits.length = 2 ^ r.numOptionals - 1 ∧
        r.optionalCircuits.map (fun oc => oc.matchedOptionals) =
          (List.range (2 ^ r.numOptionals - 1)).map
            (fun combo => matchedIndicesOf combo r.numOptionals)
      | .error _ => True) ∧
    (∀ (info : QueryInfo) (allOpt : List OptionalBlock)
        (matched : List Nat) (v : String),
      v ∈ optionalOnlyVars info allOpt matched ↔
        appearsOnlyInUnmatched info allOpt matched v) ∧
    ((transform_query_with_options 100 c8OptQuery defOpts ⟨0, 0⟩).toOption.map
      (fun p => (p.1.metaVariables, p.1.numOptionals,
                 p.1.optionalCircuits.map
                   (fun oc => (oc.matchedOptionals, oc.metaVariables)))) =
      some (["s", "o"], 1, [([], ["s"])])) := by
  refine ⟨?_, ?_, by decide⟩
  · intro fuel root opts c
    split
    case h_2 => trivial
    case h_1 r snd heq =>
      cases hq : process_query fuel root ⟨c.varCtr, 0⟩ with
      | error e => simp [transform_query_with_options, hq, bind, Except.bind] at heq
      | ok pq =>
        obtain ⟨info, c1⟩ := pq
        cases hg : generate_circuit_for_optional_combination info
            (collect_all_optional_blocks info.pattern.optionalBlocks)
            (List.range (collect_all_optional_blocks info.pattern.optionalBlocks).length)
            opts with
        | error e => simp [transform_query_with_options, hq, hg, bind, Except.bind] at heq
        | ok g3 =>
          obtain ⟨nr, hid2, hh⟩ := g3
          cases hm : mapExcept
              (buildCombo info (collect_all_optional_blocks info.pattern.optionalBlocks)
                opts (collect_all_optional_blocks info.pattern.optionalBlocks).length)
              (List.range
                (2 ^ (collect_all_optional_blocks info.pattern.optionalBlocks).length - 1)) with
          | error e =>
            simp [transform_query_with_options, hq, hg, hm, bind, Except.bind] at heq
          | ok combos =>
            simp only [transform_query_with_options, hq, hg, hm, bind, Except.bind,
              Except.ok.injEq, Prod.mk.injEq] at heq
            obtain ⟨h1, h2⟩ := heq
            subst h1
            constructor
            · have hl := mapExcept_length _ _ _ hm
              simpa using hl
            · exact mapExcept_map _ _ _
                (fun x y hxy => buildCombo_matched _ _ _ _ _ _ hxy) _ _ hm
  · intro info allOpt matched v
    unfold optionalOnlyVars appearsOnlyInUnmatched
    rw [mem_foldl_matchedRemove, mem_foldl_filterRemove, mem_foldl_unmatched]
    simp only [List.not_mem_nil, false_or]
    tauto

end SparqlNoir
